import Mathlib

/-!
Shallow embedding of the scene-release parser (`src/parser.rs`, `src/types.rs`).

Strings are modelled as lists of characters (`Str`).  Every regular expression
of the source is hand-compiled into an explicit scanner over `Str`, keeping the
leftmost-first semantics of the Rust regex crate (earliest start position wins; at
a position, alternatives are tried in written order, greedy quantifiers try the
longest repetition first and backtrack, lazy quantifiers the shortest first).
Character classes `\d`, `\w`, `\s` and case folding are modelled with the ASCII
predicates, which agree with the Unicode classes on all ASCII input.

Loops of the source that resume scanning after the end of the previous match
(`captures_iter`, `replace_all`) are written with an explicit fuel argument
(`length + 1` is always enough because every pattern of the source consumes at
least one character), so that every definition is structurally recursive and
evaluates inside the kernel.

The floating-point density test `alnum as f32 / len as f32 > 0.7` is
modelled by the exact rational comparison `10 * alnum > 7 * len`; for the
lengths admitted by the source (`len ≤ 30`) the two tests agree, because no
fraction with denominator ≤ 30 lies inside the rounding error of `f32` around
`0.7`.
-/

abbrev Str := List Char

/-- The space character, used as the replacement text of most `replace_all`s. -/
def spc : Str := [' ']

def lbrace : Char := Char.ofNat 123

def rbrace : Char := Char.ofNat 125

def apos : Char := Char.ofNat 39

def bslash : Char := Char.ofNat 92

def nlChar : Char := Char.ofNat 10

/-- Case-insensitive character comparison (ASCII case folding). -/
def eqCI (a b : Char) : Bool := a.toLower = b.toLower

def isDig (c : Char) : Bool := c.isDigit

/-- Regex `\w` (word character), ASCII fragment. -/
def isWordChar (c : Char) : Bool := c.isAlphanum || c = '_'

def isWS (c : Char) : Bool := c.isWhitespace

def isUpperA (c : Char) : Bool := c.isUpper

def isAlnumA (c : Char) : Bool := c.isAlphanum

def isAlphaA (c : Char) : Bool := c.isAlpha

/-- Regex `.` matches every character except a newline. -/
def dotChar (c : Char) : Bool := c ≠ nlChar

/-- `swCS n l`: `l` starts with `n` (case-sensitive). -/
def swCS : Str → Str → Bool
  | [], _ => true
  | _ :: _, [] => false
  | a :: as, b :: bs => a = b && swCS as bs

/-- `swCI n l`: `l` starts with `n` up to ASCII case. -/
def swCI : Str → Str → Bool
  | [], _ => true
  | _ :: _, [] => false
  | a :: as, b :: bs => eqCI a b && swCI as bs

/-- `hasSub n l`: `n` occurs as a contiguous substring of `l`
(Rust `str::contains` with a literal pattern). -/
def hasSub (n : Str) : Str → Bool
  | [] => swCS n []
  | c :: t => swCS n (c :: t) || hasSub n t

/-- Case-insensitive substring occurrence (used for `(?i)` literal searches). -/
def hasSubCI (n : Str) : Str → Bool
  | [] => swCI n []
  | c :: t => swCI n (c :: t) || hasSubCI n t

/-- Rust `eq_ignore_ascii_case`. -/
def eqListCI : Str → Str → Bool
  | [], [] => true
  | a :: as, b :: bs => eqCI a b && eqListCI as bs
  | _, _ => false

/-- Rust `str::trim`. -/
def trimStr (l : Str) : Str := ((l.dropWhile isWS).reverse.dropWhile isWS).reverse

def splitWSAux : Str → Str → List Str
  | [], acc => if acc = [] then [] else [acc.reverse]
  | c :: t, acc =>
    if isWS c then (if acc = [] then splitWSAux t [] else acc.reverse :: splitWSAux t [])
    else splitWSAux t (c :: acc)

/-- Rust `str::split_whitespace` (collected). -/
def splitWS (l : Str) : List Str := splitWSAux l []

def joinSpace : List Str → Str
  | [] => []
  | [w] => w
  | w :: ws => w ++ ' ' :: joinSpace ws

/-- `split_whitespace().collect().join(" ")`. -/
def collapseWS (l : Str) : Str := joinSpace (splitWS l)

def splitOnCAux (sep : Char) : Str → Str → List Str
  | [], acc => [acc.reverse]
  | c :: t, acc =>
    if c = sep then acc.reverse :: splitOnCAux sep t [] else splitOnCAux sep t (c :: acc)

/-- Rust `str::split(sep)` collected (keeps empty segments). -/
def splitOnC (sep : Char) (l : Str) : List Str := splitOnCAux sep l []

/-- Split `l` at the last occurrence of `c`:
`rsplitLast c l = some (before, after)` with `l = before ++ [c] ++ after`
and `c ∉ after` (Rust `rfind` followed by index slicing). -/
def rsplitLast (c : Char) (l : Str) : Option (Str × Str) :=
  let r := l.reverse
  let afterR := r.takeWhile (fun x => x ≠ c)
  let restR := r.dropWhile (fun x => x ≠ c)
  match restR with
  | [] => none
  | _ :: beforeR => some (beforeR.reverse, afterR.reverse)

def natOfDigits (l : Str) : Nat := l.foldl (fun a c => a * 10 + (c.toNat - 48)) 0

/-- Rust `str::parse::<u128>` on an all-digit capture (fails on overflow). -/
def parseU128 (ds : Str) : Option Nat :=
  if ds = [] then none
  else if natOfDigits ds < 2 ^ 128 then some (natOfDigits ds) else none

/-- Rust `str::parse::<u16>` on an all-digit capture. -/
def parseU16 (ds : Str) : Option Nat :=
  if ds = [] then none
  else if natOfDigits ds < 2 ^ 16 then some (natOfDigits ds) else none

/-- Rust `str::parse::<u8>` on an all-digit capture. -/
def parseU8 (ds : Str) : Option Nat :=
  if ds = [] then none
  else if natOfDigits ds < 2 ^ 8 then some (natOfDigits ds) else none

/-- Scan the input left to right, trying the position matcher `f` (which gets
the previous character for word-boundary tests) at every position; the first
success is returned.  This is the leftmost-match search of `Regex::captures` /
`Regex::is_match`. -/
def scanP {α : Type} (f : Option Char → Str → Option α) : Option Char → Str → Option α
  | prev, [] => f prev []
  | prev, c :: t =>
    match f prev (c :: t) with
    | some a => some a
    | none => scanP f (some c) t

def findFirst {α : Type} (f : Option Char → Str → Option α) (l : Str) : Option α :=
  scanP f none l

/-- `replace_all` with replacement `rep`: the position matcher `m` returns the
length of the match starting at the position.  Non-overlapping, resumes after
the end of each match.  Every matcher used with this function consumes at
least one character, so the fuel `length + 1` never runs out and the
`some 0` case (an empty match) is unreachable. -/
def replAllF (m : Option Char → Str → Option Nat) (rep : Str) :
    Nat → Option Char → Str → Str
  | 0, _, l => l
  | Nat.succ f, prev, l =>
    match l, m prev l with
    | [], _ => []
    | c :: t, some (Nat.succ k) =>
      rep ++ replAllF m rep f (some ((c :: t).getD k c)) (t.drop k)
    | c :: t, _ => c :: replAllF m rep f (some c) t

def replA (m : Option Char → Str → Option Nat) (rep : Str) (l : Str) : Str :=
  replAllF m rep (l.length + 1) none l

/-- All matches of the position matcher `m` (length of match plus a payload),
left to right and non-overlapping: the list-of-captures view of
`captures_iter`. -/
def matchListF {α : Type} (m : Option Char → Str → Option (Nat × α)) :
    Nat → Option Char → Str → List α
  | 0, _, _ => []
  | Nat.succ f, prev, l =>
    match l, m prev l with
    | [], _ => []
    | c :: t, some (Nat.succ k, a) =>
      a :: matchListF m f (some ((c :: t).getD k c)) (t.drop k)
    | c :: t, _ => matchListF m f (some c) t

def matchList {α : Type} (m : Option Char → Str → Option (Nat × α)) (l : Str) : List α :=
  matchListF m (l.length + 1) none l

/-- Replace every occurrence of the literal substring `n` by `rep`
(Rust `str::replace`).  The `n = []` guard is unreachable in this
development: every needle passed to it is nonempty. -/
def replaceSubF (n rep : Str) : Nat → Str → Str
  | 0, l => l
  | Nat.succ f, l =>
    if n = [] then l
    else if swCS n l then rep ++ replaceSubF n rep f (l.drop n.length)
    else match l with
      | [] => []
      | c :: t => c :: replaceSubF n rep f t

def replaceS (hay n rep : Str) : Str := replaceSubF n rep (hay.length + 1) hay

/-- `\d{k}` (an exact digit count), returning the numeric value and the rest. -/
def tryDigExact (k : Nat) (l : Str) : Option (Nat × Str) :=
  let pre := l.take k
  if pre.length = k && pre.all isDig then some (natOfDigits pre, l.drop k) else none

/-- `\d{lo,hi}` with greedy backtracking: the continuation is tried with
`hi` digits first, then `hi - 1`, …, down to `lo`. -/
def bdLH {α : Type} (lo : Nat) (cont : Nat → Str → Option α) : Nat → Str → Option α
  | 0, _ => none
  | Nat.succ h, l =>
    if lo ≤ Nat.succ h then
      match tryDigExact (Nat.succ h) l with
      | some (v, rest) =>
        (match cont v rest with
         | some a => some a
         | none => bdLH lo cont h l)
      | none => bdLH lo cont h l
    else none

/-- `\d+` (greedy; the value and the rest). -/
def digPlus (l : Str) : Option (Nat × Str) :=
  let pre := l.takeWhile isDig
  if pre = [] then none else some (natOfDigits pre, l.drop pre.length)

/-- `\d+` keeping the matched digit string. -/
def digPlusS (l : Str) : Option (Str × Str) :=
  let pre := l.takeWhile isDig
  if pre = [] then none else some (pre, l.drop pre.length)

/-- A single literal character, CPS. -/
def chC {α : Type} (c : Char) (cont : Str → Option α) : Str → Option α
  | [] => none
  | x :: t => if x = c then cont t else none

/-- A single literal character up to case, CPS. -/
def chI {α : Type} (c : Char) (cont : Str → Option α) : Str → Option α
  | [] => none
  | x :: t => if eqCI x c then cont t else none

/-- A case-sensitive literal, CPS. -/
def litC {α : Type} (w : Str) (cont : Str → Option α) (l : Str) : Option α :=
  if swCS w l then cont (l.drop w.length) else none

/-- A case-insensitive literal, CPS. -/
def litI {α : Type} (w : Str) (cont : Str → Option α) (l : Str) : Option α :=
  if swCI w l then cont (l.drop w.length) else none

/-- `\s*` (greedy; every use site is followed by a non-whitespace token, so no
backtracking is needed). -/
def wsS {α : Type} (cont : Str → Option α) (l : Str) : Option α :=
  cont (l.dropWhile isWS)

/-- `\s+` (greedy, at least one). -/
def wsP {α : Type} (cont : Str → Option α) : Str → Option α
  | [] => none
  | x :: t => if isWS x then cont (t.dropWhile isWS) else none

/-- Ordered alternation: the first alternative that matches wins. -/
def altList {α : Type} (fs : List (Str → Option α)) (l : Str) : Option α :=
  match fs with
  | [] => none
  | f :: rest =>
    match f l with
    | some a => some a
    | none => altList rest l

def wOpt : Option Char → Bool
  | some c => isWordChar c
  | none => false

/-- `\b{w}\b` for a literal `w`, matched case-insensitively at one position;
returns the consumed length.  The boundary test follows the Rust regex crate: the word-ness of
the neighbouring character differs from that of the edge of the literal. -/
def wbAt (w : Str) (prev : Option Char) (l : Str) : Option Nat :=
  match w.getLast? with
  | none => none
  | some lastc =>
    match w with
    | [] => none
    | a :: _ =>
      if Bool.xor (wOpt prev) (isWordChar a)
          && swCI w l
          && Bool.xor (isWordChar lastc) (wOpt (l.drop w.length).head?)
      then some w.length else none

/-- `(?i)\b{w}\b` as a whole-string search (`Regex::is_match`). -/
def wbSearch (w : Str) (l : Str) : Bool :=
  (findFirst (fun p s => wbAt w p s) l).isSome

/-! ## The data model (`src/types.rs`)

`ParsedRelease` mirrors the Rust struct field for field; `u16`/`u128`/`u8`
integers become `Nat` (their parses from bounded digit captures are modelled
with explicit overflow checks where the source can fail), `HashMap` becomes an
association list with `insert`-replace semantics (no claim inspects its
order), and `Default` is the all-empty record. -/

structure ParsedRelease where
  release : Str := []
  title : Str := []
  title_extra : Str := []
  episode_title : Str := []
  group : Str := []
  year : Option Nat := none
  date : Option Str := none
  season : Option Nat := none
  episode : Option Nat := none
  episodes : List Nat := []
  disc : Option Nat := none
  flags : List Str := []
  source : Str := []
  format : Str := []
  resolution : Str := []
  audio : Str := []
  device : Str := []
  os : Str := []
  version : Str := []
  language : List (Str × Str) := []
  tmdb_id : Option Str := none
  tvdb_id : Option Str := none
  imdb_id : Option Str := none
  edition : Option Str := none
  hdr : Str := []
  streaming_provider : Str := []
  release_type : Str := []
deriving Repr, DecidableEq

structure PathInfo where
  directory : Option ParsedRelease
  season : Option Nat
  file : ParsedRelease
  full_path : Str
deriving Repr, DecidableEq

/-! ## Season/episode extraction (`extract_season_episode`, parser.rs 379-495) -/

/-- `(?i)E(\d{1,3})E(\d{1,3})` at one position. -/
def matchE2At (_ : Option Char) (l : Str) : Option (Nat × Nat) :=
  chI 'E' (fun r1 =>
    bdLH 1 (fun ep1 r2 =>
      chI 'E' (fun r3 =>
        bdLH 1 (fun ep2 _ => some (ep1, ep2)) 3 r3) r2) 3 r1) l

/-- `(?i)\bE(\d{3})\b` at one position (`prev` carries the preceding
character for the word boundary). -/
def matchE3At (prev : Option Char) (l : Str) : Option Nat :=
  match l with
  | c :: t =>
    if eqCI c 'E' && !(wOpt prev) then
      match tryDigExact 3 t with
      | some (v, rest) => if wOpt rest.head? then none else some v
      | none => none
    else none
  | [] => none

/-- First match of `(?i)\bE(\d{3})\b` together with the prefix of the input
before the match (the source slices `&release_name[..ep_start]`). -/
def findE3Aux : Str → Str → Option (Str × Nat)
  | _, [] => none
  | preR, c :: t =>
    match matchE3At preR.head? (c :: t) with
    | some v => some (preR.reverse, v)
    | none => findE3Aux (c :: preR) t

/-- `(?i)S\d+\s*$` tested on the prefix before the `E(\d{3})` match. -/
def lookbackSDigits (before : Str) : Bool :=
  let r := before.reverse.dropWhile isWS
  let ds := r.takeWhile isDig
  ds ≠ [] &&
    (match r.drop ds.length with
     | x :: _ => eqCI x 'S'
     | [] => false)

/-- `(?i)S(\d{1,2})E(\d{1,3})-E(\d{1,3})` at one position. -/
def matchRangeAt (_ : Option Char) (l : Str) : Option (Nat × Nat × Nat) :=
  chI 'S' (fun r1 =>
    bdLH 1 (fun se r2 =>
      chI 'E' (fun r3 =>
        bdLH 1 (fun e1 r4 =>
          chC '-' (fun r5 =>
            chI 'E' (fun r6 =>
              bdLH 1 (fun e2 _ => some (se, e1, e2)) 3 r6) r5) r4) 3 r3) r2) 2 r1) l

/-- `(?i)S(\d{1,2})E(\d{1,3})` at one position. -/
def matchSEAt (_ : Option Char) (l : Str) : Option (Nat × Nat) :=
  chI 'S' (fun r1 =>
    bdLH 1 (fun s r2 =>
      chI 'E' (fun r3 =>
        bdLH 1 (fun e _ => some (s, e)) 3 r3) r2) 2 r1) l

/-- `(?i)(\d{1,2})x(\d{1,3})` at one position. -/
def matchNxMAt (_ : Option Char) (l : Str) : Option (Nat × Nat) :=
  bdLH 1 (fun s r2 =>
    chI 'x' (fun r3 =>
      bdLH 1 (fun e _ => some (s, e)) 3 r3) r2) 2 l

/-- `(?i)Season\s*(\d{1,2})\s*Episode\s*(\d{1,3})` at one position. -/
def matchSeasonWordAt (_ : Option Char) (l : Str) : Option (Nat × Nat) :=
  litI "Season".data (fun r1 =>
    wsS (fun r2 =>
      bdLH 1 (fun s r3 =>
        wsS (fun r4 =>
          litI "Episode".data (fun r5 =>
            wsS (fun r6 =>
              bdLH 1 (fun e _ => some (s, e)) 3 r6) r5) r4) r3) 2 r2) r1) l

/-- `(?i)S(\d{1,2})\s*-\s*(\d{1,3})` at one position. -/
def matchSDashAt (_ : Option Char) (l : Str) : Option (Nat × Nat) :=
  chI 'S' (fun r1 =>
    bdLH 1 (fun s r2 =>
      wsS (chC '-' (wsS (bdLH 1 (fun e _ => some (s, e)) 3))) r2) 2 r1) l

/-- `(\d{1,2})\s*-\s*(\d{1,3})` at one position. -/
def matchBareDashAt (_ : Option Char) (l : Str) : Option (Nat × Nat) :=
  bdLH 1 (fun s r2 =>
    wsS (chC '-' (wsS (bdLH 1 (fun e _ => some (s, e)) 3))) r2) 2 l

/-- `for ep in ep_start..=ep_end { episodes.push(ep) }`. -/
def rangeList (a b : Nat) : List Nat := (List.range (b + 1 - a)).map (fun i => a + i)

/-- Anime tier `(\d{1,2})\s*-\s*(\d{1,3})`, bounded to season 1-20 and
episode 1-200. -/
def seBareDashTier (rn : Str) : Option (Nat × Nat × List Nat) :=
  match findFirst matchBareDashAt rn with
  | some (s, e) =>
    if 1 ≤ s && s ≤ 20 && 1 ≤ e && e ≤ 200 then some (s, e, [e]) else none
  | none => none

/-- The single-episode patterns (`S01E01`, `1x01`, `Season N Episode M`) and
the two hyphen tiers, in source order. -/
def seSingleTier (rn : Str) : Option (Nat × Nat × List Nat) :=
  match findFirst matchSEAt rn with
  | some (s, e) => some (s, e, [e])
  | none =>
  match findFirst matchNxMAt rn with
  | some (s, e) => some (s, e, [e])
  | none =>
  match findFirst matchSeasonWordAt rn with
  | some (s, e) => some (s, e, [e])
  | none =>
  match findFirst matchSDashAt rn with
  | some (s, e) =>
    if 1 ≤ s && s ≤ 20 && 1 ≤ e && e ≤ 200 then some (s, e, [e]) else seBareDashTier rn
  | none => seBareDashTier rn

/-- The range tier `S(\d{1,2})E(\d{1,3})-E(\d{1,3})`, expanding the inclusive
range, then the single tiers. -/
def seRangeTier (rn : Str) : Option (Nat × Nat × List Nat) :=
  match findFirst matchRangeAt rn with
  | some (s, e1, e2) => some (s, e1, rangeList e1 e2)
  | none => seSingleTier rn

/-- The `E(\d{3})` episode-only tier with its negative lookback guard, then
the later tiers. -/
def seE3Tier (rn : Str) : Option (Nat × Nat × List Nat) :=
  match findE3Aux [] rn with
  | some (before, episode) =>
    if lookbackSDigits before then seRangeTier rn else some (0, episode, [episode])
  | none => seRangeTier rn

/-- `ReleaseParser::extract_season_episode` (parser.rs 379-495).  A returned
season of `0` means "no season". -/
def extract_season_episode (rn : Str) : Option (Nat × Nat × List Nat) :=
  match findFirst matchE2At rn with
  | some (ep1, ep2) => some (0, ep1, [ep1, ep2])
  | none => seE3Tier rn

/-- `(?i)Episode\s+(\d{1,3})` (the episode-only fallback inside `parse`). -/
def matchEpisodeWordAt (_ : Option Char) (l : Str) : Option Nat :=
  litI "Episode".data (fun r1 =>
    wsP (fun r2 =>
      bdLH 1 (fun e _ => some e) 3 r2) r1) l

/-! ## Year extraction (`extract_year`, parser.rs 497-531).
The `u16` parse of a 4-digit capture never overflows, so the numeric value of the capture is carried directly. -/

/-- `\((\d{4})\)` at one position. -/
def matchParenYearAt (_ : Option Char) (l : Str) : Option Nat :=
  chC '(' (fun r1 =>
    match tryDigExact 4 r1 with
    | some (v, rest) => chC ')' (fun _ => some v) rest
    | none => none) l

/-- `\[(\d{4})\]` at one position. -/
def matchBrackYearAt (_ : Option Char) (l : Str) : Option Nat :=
  chC '[' (fun r1 =>
    match tryDigExact 4 r1 with
    | some (v, rest) => chC ']' (fun _ => some v) rest
    | none => none) l

/-- `\b(19|20|21)\d{2}\b` at one position, with the consumed length. -/
def matchBareYearAt (prev : Option Char) (l : Str) : Option (Nat × Nat) :=
  if wOpt prev then none
  else if swCS "19".data l || swCS "20".data l || swCS "21".data l then
    match tryDigExact 4 l with
    | some (v, rest) => if wOpt rest.head? then none else some (4, v)
    | none => none
  else none

/-- All bare-year matches (`captures_iter`), left to right. -/
def bareYearList (rn : Str) : List Nat := matchList matchBareYearAt rn

def yearBareStage (rn : Str) : Option Nat :=
  (bareYearList rn).find? (fun y => decide (1900 ≤ y) && decide (y ≤ 2100))

def yearBrackStage (rn : Str) : Option Nat :=
  match findFirst matchBrackYearAt rn with
  | some y => if 1900 ≤ y && y ≤ 2100 then some y else yearBareStage rn
  | none => yearBareStage rn

/-- `ReleaseParser::extract_year` (parser.rs 497-531). -/
def extract_year (rn : Str) : Option Nat :=
  match findFirst matchParenYearAt rn with
  | some y => if 1900 ≤ y && y ≤ 2100 then some y else yearBrackStage rn
  | none => yearBrackStage rn

/-! ## Episode number / date / disc / identifiers -/

/-- `\d{k}` keeping the digit string. -/
def exactDigStr (k : Nat) (l : Str) : Option (Str × Str) :=
  let pre := l.take k
  if pre.length = k && pre.all isDig then some (pre, l.drop k) else none

/-- `-\s*(\d{3}(?:-\d{3})?)\s*-` at one position, with the greedy optional
range part backtracking against the trailing `\s*-`. -/
def matchDashNumAt (_ : Option Char) (l : Str) : Option Str :=
  chC '-' (fun r1 =>
    wsS (fun r2 =>
      match exactDigStr 3 r2 with
      | none => none
      | some (d1, r3) =>
        let withOpt : Option Str :=
          match r3 with
          | '-' :: r4 =>
            (match exactDigStr 3 r4 with
             | some (d2, r5) => wsS (chC '-' (fun _ => some (d1 ++ '-' :: d2))) r5
             | none => none)
          | _ => none
        match withOpt with
        | some s => some s
        | none => wsS (chC '-' (fun _ => some d1)) r3) r1) l

/-- `\[(\d{1,4})\]` at one position (consumed length and digit capture). -/
def matchBrackNumAt (_ : Option Char) (l : Str) : Option (Nat × Str) :=
  match l with
  | '[' :: r1 =>
    let ds := r1.takeWhile isDig
    if ds ≠ [] && ds.length ≤ 4 then
      match r1.drop ds.length with
      | ']' :: _ => some (ds.length + 2, ds)
      | _ => none
    else none
  | _ => none

/-- The `captures_iter` loop over bracketed numbers: 1-3 digit numbers are
episode numbers; 4-digit numbers are skipped when they are plausible years. -/
def brackEpisodePick : List Str → Option Str
  | [] => none
  | d :: rest =>
    if d.length ≤ 3 then some d
    else
      match parseU16 d with
      | some y => if 1900 ≤ y && y ≤ 2100 then brackEpisodePick rest else some d
      | none => some d

/-- `ReleaseParser::extract_episode_number` (parser.rs 1641-1670). -/
def extract_episode_number (rn : Str) : Option Str :=
  match findFirst matchDashNumAt rn with
  | some s => some s
  | none => brackEpisodePick (matchList matchBrackNumAt rn)

/-- `-\s*(\d{4}-\d{2}-\d{2})\s*-` at one position. -/
def matchDateAt (_ : Option Char) (l : Str) : Option Str :=
  chC '-' (fun r1 =>
    wsS (fun r2 =>
      match exactDigStr 4 r2 with
      | some (y, r3) =>
        chC '-' (fun r4 =>
          match exactDigStr 2 r4 with
          | some (m, r5) =>
            chC '-' (fun r6 =>
              match exactDigStr 2 r6 with
              | some (d, r7) =>
                wsS (chC '-' (fun _ => some (y ++ '-' :: m ++ '-' :: d))) r7
              | none => none) r5
          | none => none) r3
      | none => none) r1) l

/-- `ReleaseParser::extract_date` (parser.rs 1672-1681). -/
def extract_date (rn : Str) : Option Str := findFirst matchDateAt rn

/-- `(?i)(?:Disc|CD|DVD)\s*(\d+)` at one position (digit-string capture). -/
def matchDiscAt (_ : Option Char) (l : Str) : Option Str :=
  altList
    [ litI "Disc".data (fun r => wsS (fun r2 => (digPlusS r2).map (fun p => p.1)) r),
      litI "CD".data (fun r => wsS (fun r2 => (digPlusS r2).map (fun p => p.1)) r),
      litI "DVD".data (fun r => wsS (fun r2 => (digPlusS r2).map (fun p => p.1)) r) ] l

/-- `ReleaseParser::extract_disc` (parser.rs 1565-1575); the `u8` parse of the
first capture can fail, in which case no further match is tried. -/
def extract_disc (rn : Str) : Option Nat :=
  match findFirst matchDiscAt rn with
  | some ds => parseU8 ds
  | none => none

/-- `(?:id)?` (greedy optional literal `id`). -/
def optIdLit {α : Type} (cont : Str → Option α) (l : Str) : Option α :=
  match litC "id".data cont l with
  | some a => some a
  | none => cont l

/-- `\{tmdb-(\d+)\}` at one position. -/
def matchTmdbBraceAt (_ : Option Char) (l : Str) : Option Str :=
  chC lbrace (fun r1 =>
    litC "tmdb-".data (fun r2 =>
      match digPlusS r2 with
      | some (ds, r3) => chC rbrace (fun _ => some ds) r3
      | none => none) r1) l

/-- `\[tmdb(?:id)?-(\d+)\]` at one position. -/
def matchTmdbBrackAt (_ : Option Char) (l : Str) : Option Str :=
  chC '[' (fun r1 =>
    litC "tmdb".data (fun r2 =>
      optIdLit (fun r3 =>
        chC '-' (fun r4 =>
          match digPlusS r4 with
          | some (ds, r5) => chC ']' (fun _ => some ds) r5
          | none => none) r3) r2) r1) l

/-- `ReleaseParser::extract_tmdb_id` (parser.rs 1577-1591). -/
def extract_tmdb_id (rn : Str) : Option Str :=
  match findFirst matchTmdbBraceAt rn with
  | some s => some s
  | none => findFirst matchTmdbBrackAt rn

/-- `\{tvdb-(\d+)\}` at one position. -/
def matchTvdbBraceAt (_ : Option Char) (l : Str) : Option Str :=
  chC lbrace (fun r1 =>
    litC "tvdb-".data (fun r2 =>
      match digPlusS r2 with
      | some (ds, r3) => chC rbrace (fun _ => some ds) r3
      | none => none) r1) l

/-- `\[tvdb(?:id)?-(\d+)\]` at one position. -/
def matchTvdbBrackAt (_ : Option Char) (l : Str) : Option Str :=
  chC '[' (fun r1 =>
    litC "tvdb".data (fun r2 =>
      optIdLit (fun r3 =>
        chC '-' (fun r4 =>
          match digPlusS r4 with
          | some (ds, r5) => chC ']' (fun _ => some ds) r5
          | none => none) r3) r2) r1) l

/-- `ReleaseParser::extract_tvdb_id` (parser.rs 1593-1607). -/
def extract_tvdb_id (rn : Str) : Option Str :=
  match findFirst matchTvdbBraceAt rn with
  | some s => some s
  | none => findFirst matchTvdbBrackAt rn

/-- `\{imdb-(tt\d+)\}` at one position. -/
def matchImdbBraceAt (_ : Option Char) (l : Str) : Option Str :=
  chC lbrace (fun r1 =>
    litC "imdb-tt".data (fun r2 =>
      match digPlusS r2 with
      | some (ds, r3) => chC rbrace (fun _ => some ("tt".data ++ ds)) r3
      | none => none) r1) l

/-- `\[imdb(?:id)?-(tt\d+)\]` at one position. -/
def matchImdbBrackAt (_ : Option Char) (l : Str) : Option Str :=
  chC '[' (fun r1 =>
    litC "imdb".data (fun r2 =>
      optIdLit (fun r3 =>
        chC '-' (fun r4 =>
          litC "tt".data (fun r5 =>
            match digPlusS r5 with
            | some (ds, r6) => chC ']' (fun _ => some ("tt".data ++ ds)) r6
            | none => none) r4) r3) r2) r1) l

/-- `ReleaseParser::extract_imdb_id` (parser.rs 1609-1623). -/
def extract_imdb_id (rn : Str) : Option Str :=
  match findFirst matchImdbBraceAt rn with
  | some s => some s
  | none => findFirst matchImdbBrackAt rn

/-- `\{edition-([^}]+)\}` at one position. -/
def matchEditionBraceAt (_ : Option Char) (l : Str) : Option Str :=
  chC lbrace (fun r1 =>
    litC "edition-".data (fun r2 =>
      let content := r2.takeWhile (fun c => c ≠ rbrace)
      if content ≠ [] then
        match r2.drop content.length with
        | x :: _ => if x = rbrace then some content else none
        | [] => none
      else none) r1) l

/-- `\[([A-Z]-Edition)\]` at one position. -/
def matchEditionBrackAt (_ : Option Char) (l : Str) : Option Str :=
  match l with
  | '[' :: u :: rest =>
    if isUpperA u then
      litC "-Edition".data (fun r2 =>
        chC ']' (fun _ => some (u :: "-Edition".data)) r2) rest
    else none
  | _ => none

/-- `ReleaseParser::extract_edition` (parser.rs 1625-1639). -/
def extract_edition (rn : Str) : Option Str :=
  match findFirst matchEditionBraceAt rn with
  | some s => some (trimStr s)
  | none =>
    match findFirst matchEditionBrackAt rn with
    | some s => some (trimStr s)
    | none => none

/-! ## Group extraction (`extract_group`, parser.rs 315-377) -/

/-- `^\[([^\]]+)\]` anchored at the start: the leading bracket group and the
rest of the string after it. -/
def matchLeadBracket (l : Str) : Option (Str × Str) :=
  match l with
  | '[' :: r1 =>
    let content := r1.takeWhile (fun c => c ≠ ']')
    if content ≠ [] then
      match r1.drop content.length with
      | ']' :: rest => some (content, rest)
      | _ => none
    else none
  | _ => none

def metadataTags1 : List Str :=
  ["AVC", "GB", "1080P", "720p", "WEB-DL", "WEBDL", "WEBRiP", "BluRay", "x264", "x265",
   "h264", "h265", "HEVC", "AAC", "AC3", "DTS", "MultiSub", "Multi-Subs"].map String.data

def metadataTags2 : List Str :=
  ["AVC", "GB", "1080P", "720p", "WEB-DL", "WEBDL", "WEBRiP", "BluRay", "x264", "x265",
   "h264", "h265", "HEVC", "AAC", "AC3", "DTS", "MultiSub", "Multi-Subs", "H264",
   "AAC 2.0"].map String.data

/-- Tier (a): a bracketed token at the start that passes the length and
alphanumeric-density heuristics and is not a metadata tag.  Lengths are
modelled as character counts and the density test exactly (see the header). -/
def groupTier1 (rn : Str) : Option Str :=
  match matchLeadBracket rn with
  | some (content, _) =>
    let pg := trimStr content
    if 3 ≤ pg.length && pg.length ≤ 30 then
      let alnum := (pg.filter (fun c => isAlnumA c || c = '-' || c = '_' || c = ' ')).length
      if 10 * alnum > 7 * pg.length then
        if !(metadataTags1.any (fun tag => eqListCI pg tag)) then some pg else none
      else none
    else none
  | none => none

/-- `\[([^\]]+)\]$`: the leftmost bracket group whose closing bracket is the
final character. -/
def matchEndBracket : Str → Option Str
  | [] => none
  | '[' :: r1 =>
    let content := r1.takeWhile (fun c => c ≠ ']')
    (match r1.drop content.length with
     | [']'] => if content ≠ [] then some content else matchEndBracket r1
     | _ => matchEndBracket r1)
  | _ :: t => matchEndBracket t

/-- Tier (b): a bracketed token at the end, same heuristics (without the
space in the density class) against the second exclusion list. -/
def groupTier2 (rn : Str) : Option Str :=
  match matchEndBracket rn with
  | some content =>
    let pg := trimStr content
    if 2 ≤ pg.length && pg.length ≤ 30 then
      let alnum := (pg.filter (fun c => isAlnumA c || c = '-' || c = '_')).length
      if 10 * alnum > 7 * pg.length then
        if !(metadataTags2.any (fun tag => eqListCI pg tag)) then some pg else none
      else none
    else none
  | none => none

/-- `\.([A-Z][a-zA-Z0-9]{2,15})$`: the leftmost dot followed by a capitalized
alphanumeric word that runs to the end of the string. -/
def matchDotWordEnd : Str → Option Str
  | [] => none
  | c :: t =>
    if c = '.' then
      match t with
      | u :: rest =>
        if isUpperA u && 2 ≤ rest.length && rest.length ≤ 15 && rest.all isAlnumA
        then some (u :: rest)
        else matchDotWordEnd t
      | [] => none
    else matchDotWordEnd t

def notGroupWords : List Str :=
  ["DVDRip", "x264", "x265", "AC3", "DTS", "AAC", "MP3", "FLAC", "HEVC", "AVC"].map
    String.data

/-- Tier (d): the final capitalized-word heuristic for hyphen-less names. -/
def groupTier4 (rn : Str) : Option Str :=
  match matchDotWordEnd rn with
  | some pg =>
    if !(notGroupWords.any (fun w => eqListCI pg w)) then some pg else none
  | none => none

/-- Tier (c): the token after the last hyphen, trimmed of a file extension. -/
def groupTier3 (rn : Str) : Option Str :=
  match rsplitLast '-' rn with
  | some (_, after) =>
    let group_clean := after.takeWhile (fun c => c ≠ '.')
    if group_clean ≠ [] && group_clean.length < 50 then some group_clean
    else groupTier4 rn
  | none => groupTier4 rn

/-- `ReleaseParser::extract_group` (parser.rs 315-377). -/
def extract_group (rn : Str) : Option Str :=
  match groupTier1 rn with
  | some g => some g
  | none =>
    match groupTier2 rn with
    | some g => some g
    | none => groupTier3 rn

/-! ## Source extraction (`extract_source`, parser.rs 533-618) -/

/-- `\[[^\]]*Remux[^\]]*\]` as `Regex::is_match`: some bracket group whose
content (which cannot contain `]`) contains `Remux`. -/
def hasRemuxBracket : Str → Bool
  | [] => false
  | c :: t =>
    (if c = '[' then
      (let content := t.takeWhile (fun x => x ≠ ']')
       match t.drop content.length with
       | ']' :: _ => hasSub "Remux".data content
       | _ => false)
     else false) || hasRemuxBracket t

/-- `\[([^\]]+?)(?:-\d+p)` at a position just inside a `[`: the lazy content
grows until the first `-\d+p` inside the bracket region.  The accumulator
holds the reversed content so far. -/
def srcLazyAux : Str → Str → Option (Nat × Str)
  | _, [] => none
  | accR, c :: t =>
    if c = ']' then none
    else
      let accR2 := c :: accR
      match t with
      | '-' :: t2 =>
        (match digPlusS t2 with
         | some (ds, t3) =>
           (match t3 with
            | 'p' :: _ => some (1 + accR2.length + 1 + ds.length + 1, accR2.reverse)
            | _ => srcLazyAux accR2 t)
         | none => srcLazyAux accR2 t)
      | _ => srcLazyAux accR2 t

/-- `\[([^\]]+?)(?:-\d+p)` at one position. -/
def matchSrcBracketAt (_ : Option Char) (l : Str) : Option (Nat × Str) :=
  match l with
  | '[' :: r1 => srcLazyAux [] r1
  | _ => none

/-- The body of the bracket-content loop of `extract_source`: the first test
that fires decides the source; `BluRay` is suppressed when the same content
also holds `Remux`. -/
def srcBracketDecide (content : Str) : Option Str :=
  if hasSub "MA WEBDL".data content || hasSub "MA.WEBDL".data content then
    some "MA WEBDL".data
  else if hasSub "iNTERNAL".data content then some "iNTERNAL".data
  else if hasSub "AMZN WEBDL".data content then some "WEBDL".data
  else if hasSub "WEBDL".data content || hasSub "WEB-DL".data content then
    some "WEB-DL".data
  else if (hasSub "Bluray".data content || hasSub "BluRay".data content) &&
      !(hasSub "Remux".data content) then
    some "BluRay".data
  else none

def sourcesList : List Str :=
  ["DVDRip", "DVD-Rip", "DVDR", "DVD5", "DVD9", "DVD-R", "DvDrip",
   "WEB-DL", "WEBRip", "Web Rip", "Web Download", "WEB", "WEBDL", "AMZN WEBDL",
   "MA WEBDL",
   "HDTV", "PDTV", "DSR", "SATRip", "TVRip", "iNTERNAL HDTV", "iNTERNAL",
   "BluRay", "BDRip", "BRRip", "BD",
   "VHSRip", "R5", "TC", "TS", "CAM", "SCR",
   "HDCAM", "TELESYNC", "TELECINE", "Remux",
   "Workprint", "WP", "PPV Rip", "PPVRip", "DDC",
   "VOD Rip", "VODRip", "HC HD Rip", "HCHDRip",
   "Web Capture", "HDRip", "DCP", "Theatre", "Theater"].map String.data

/-- The final catalog loop of `extract_source`: `BluRay` is skipped when a
`Remux` bracket exists; matching is a case-insensitive substring search. -/
def sourcesLoop (rn : Str) : List Str → Option Str
  | [] => none
  | s :: rest =>
    if s = "BluRay".data && hasSub "[".data rn && hasRemuxBracket rn then
      sourcesLoop rn rest
    else if hasSubCI s rn then some s
    else sourcesLoop rn rest

/-- `ReleaseParser::extract_source` (parser.rs 533-618). -/
def extract_source (rn : Str) : Str :=
  if hasRemuxBracket rn then "Remux".data
  else if hasSub "Remux-".data rn || hasSub ".Remux-".data rn then "Remux".data
  else
    match (matchList matchSrcBracketAt rn).findSome? srcBracketDecide with
    | some s => s
    | none =>
      if hasSub "MA.WEBDL".data rn || hasSub "MA WEBDL".data rn then "MA WEBDL".data
      else
        match sourcesLoop rn sourcesList with
        | some s => s
        | none => []

/-! ## Format extraction (`extract_format`, parser.rs 620-655) -/

/-- `\[([A-Za-z0-9]+)\]` at one position. -/
def matchAlnumBracketAt (_ : Option Char) (l : Str) : Option (Nat × Str) :=
  match l with
  | '[' :: r1 =>
    let content := r1.takeWhile isAlnumA
    if content ≠ [] then
      match r1.drop content.length with
      | ']' :: _ => some (content.length + 2, content)
      | _ => none
    else none
  | _ => none

def knownFormats : List Str :=
  ["AVC", "h265", "h264", "HEVC", "H264", "x265", "x264"].map String.data

/-- `(?i)H\.(264|265)` at one position (returns the captured digits). -/
def matchHdotAt (_ : Option Char) (l : Str) : Option Str :=
  chI 'H' (fun r1 =>
    chC '.' (fun r2 =>
      altList
        [ litC "264".data (fun _ => some "264".data),
          litC "265".data (fun _ => some "265".data) ] r2) r1) l

def formatsList : List Str :=
  ["SVCD", "VCD", "XviD", "DivX", "x264", "x265", "HEVC",
   "H264", "AVC", "MPEG2", "MPEG4", "h265", "h264"].map String.data

/-- `ReleaseParser::extract_format` (parser.rs 620-655). -/
def extract_format (rn : Str) : Str :=
  match (matchList matchAlnumBracketAt rn).findSome?
      (fun content => knownFormats.find? (fun fmt => eqListCI content fmt)) with
  | some fmt => fmt
  | none =>
    match findFirst matchHdotAt rn with
    | some v => "H.".data ++ v
    | none =>
      match formatsList.find? (fun fmt => hasSub fmt rn) with
      | some fmt => fmt
      | none => []

/-! ## Resolution extraction (`extract_resolution`, parser.rs 657-679) -/

/-- `(\d{3,4})p`-shaped check after a `-` (greedy: four digits first). -/
def resDigitsP (t : Str) : Option Str :=
  match exactDigStr 4 t with
  | some (ds, rest) =>
    (match rest with
     | 'p' :: _ => some ds
     | _ =>
       match exactDigStr 3 t with
       | some (ds3, rest3) =>
         (match rest3 with
          | 'p' :: _ => some ds3
          | _ => none)
       | none => none)
  | none =>
    match exactDigStr 3 t with
    | some (ds3, rest3) =>
      (match rest3 with
       | 'p' :: _ => some ds3
       | _ => none)
    | none => none

/-- The greedy `[^\]]*` of `\[[^\]]*-(\d{3,4})p` backtracks from the longest
prefix, so the rightmost viable `-` inside the bracket region wins. -/
def resolRegionScan : Str → Option Str → Option Str
  | [], acc => acc
  | c :: t, acc =>
    if c = '-' then
      match resDigitsP t with
      | some ds => resolRegionScan t (some ds)
      | none => resolRegionScan t acc
    else resolRegionScan t acc

/-- `\[[^\]]*-(\d{3,4})p` at one position. -/
def matchResBracketAt (_ : Option Char) (l : Str) : Option Str :=
  match l with
  | '[' :: r1 => resolRegionScan (r1.takeWhile (fun c => c ≠ ']')) none
  | _ => none

def parenRes3 (r1 : Str) : Option Str :=
  match exactDigStr 3 r1 with
  | some (ds, rest) => litC "p)".data (fun _ => some ds) rest
  | none => none

/-- `\((\d{3,4})p\)` at one position. -/
def matchParenResAt (_ : Option Char) (l : Str) : Option Str :=
  chC '(' (fun r1 =>
    match exactDigStr 4 r1 with
    | some (ds, rest) =>
      (match litC "p)".data (fun _ => some ds) rest with
       | some x => some x
       | none => parenRes3 r1)
    | none => parenRes3 r1) l

def bareRes3 (l : Str) : Option Str :=
  match exactDigStr 3 l with
  | some (ds, rest) =>
    (match rest with
     | c :: _ => if eqCI c 'p' || eqCI c 'i' then some ds else none
     | [] => none)
  | none => none

/-- `(?i)(\d{3,4})[pi]` at one position. -/
def matchBareResAt (_ : Option Char) (l : Str) : Option Str :=
  match exactDigStr 4 l with
  | some (ds, rest) =>
    (match rest with
     | c :: _ => if eqCI c 'p' || eqCI c 'i' then some ds else bareRes3 l
     | [] => bareRes3 l)
  | none => bareRes3 l

/-- `ReleaseParser::extract_resolution` (parser.rs 657-679); every branch
renders its capture as `{digits}p`. -/
def extract_resolution (rn : Str) : Str :=
  match findFirst matchResBracketAt rn with
  | some ds => ds ++ ['p']
  | none =>
    match findFirst matchParenResAt rn with
    | some ds => ds ++ ['p']
    | none =>
      match findFirst matchBareResAt rn with
      | some ds => ds ++ ['p']
      | none => []

/-! ## Audio extraction (`extract_audio`, parser.rs 681-755) -/

/-- `\[([^\]]+)\]` at one position (consumed length and content). -/
def matchFullBracketAt (_ : Option Char) (l : Str) : Option (Nat × Str) :=
  match l with
  | '[' :: r1 =>
    let content := r1.takeWhile (fun c => c ≠ ']')
    if content ≠ [] then
      match r1.drop content.length with
      | ']' :: _ => some (content.length + 2, content)
      | _ => none
    else none
  | _ => none

/-- All bracket contents, left to right (`captures_iter` of `\[([^\]]+)\]`). -/
def bracketContents (rn : Str) : List Str := matchList matchFullBracketAt rn

def audioFormatNames : List Str :=
  ["TrueHD", "DTS-HD MA", "DTS-HD", "EAC3 Atmos", "EAC3", "AC3", "AAC", "MP3",
   "FLAC", "DDP", "Dolby Digital Plus"].map String.data

/-- `(\d+\.\d+)` (the channel spec), returning the matched digits-dot-digits. -/
def chanSpec (r : Str) : Option Str :=
  match digPlusS r with
  | some (d1, r3) =>
    chC '.' (fun r4 =>
      match digPlusS r4 with
      | some (d2, _) => some (d1 ++ '.' :: d2)
      | none => none) r3
  | none => none

/-- The constructed regex `({name})\s+(\d+\.\d+)` searched inside a bracket
content (case-sensitive, as built by `format!`). -/
def audioChannelsAfter (name : Str) (content : Str) : Option Str :=
  findFirst (fun _ l =>
    litC name (fun r1 => wsP chanSpec r1) l) content

/-- One iteration of the bracket loop of `extract_audio`: the first known
name contained in the content decides, rendered with its channels when the
channel regex also matches. -/
def audioFromContent (content0 : Str) : Option Str :=
  let content := trimStr content0
  audioFormatNames.findSome? (fun name =>
    if hasSub name content then
      some
        (match audioChannelsAfter name content with
         | some ch => name ++ ' ' :: ch
         | none => name)
    else none)

def audioAltNames : List Str :=
  ["AAC", "AC3", "DTS", "MP3", "FLAC", "TrueHD", "EAC3", "DDP",
   "Dolby Digital Plus"].map String.data

/-- `(?i)(AAC|AC3|DTS|MP3|FLAC|TrueHD|EAC3|DDP|Dolby Digital Plus)(\s+|\.?)(\d+\.\d+)`
at one position; returns the format capture (input spelling) and the
channels.  The middle group tries `\s+`, then a dot, then nothing. -/
def matchAudioVerAt (_ : Option Char) (l : Str) : Option (Str × Str) :=
  audioAltNames.findSome? (fun name =>
    if swCI name l then
      let matched := l.take name.length
      let r1 := l.drop name.length
      match (match r1 with
             | x :: t => if isWS x then chanSpec (t.dropWhile isWS) else none
             | [] => none) with
      | some ch => some (matched, ch)
      | none =>
        match (match r1 with
               | '.' :: t => chanSpec t
               | _ => none) with
        | some ch => some (matched, ch)
        | none =>
          match chanSpec r1 with
          | some ch => some (matched, ch)
          | none => none
    else none)

def audioAltNames2 : List Str :=
  ["AAC", "AC3", "DTS", "MP3", "FLAC", "TrueHD", "EAC3", "DDP"].map String.data

/-- `(?i)\b(AAC|AC3|DTS|MP3|FLAC|TrueHD|EAC3|DDP)\b` at one position. -/
def matchAudioBareAt (prev : Option Char) (l : Str) : Option Str :=
  if wOpt prev then none
  else
    audioAltNames2.findSome? (fun name =>
      if swCI name l && !(wOpt (l.drop name.length).head?) then some (l.take name.length)
      else none)

def audioFormatsList : List Str :=
  ["AC3", "DTS", "AAC", "MP3", "FLAC", "TrueHD",
   "DTS-HD", "DTS-HDMA", "DTS-HD MA", "EAC3", "EAC3 Atmos",
   "DD5.1", "DD2.0", "DDP5.1", "DDP2.0", "DDP", "Dolby Digital Plus"].map String.data

/-- `ReleaseParser::extract_audio` (parser.rs 681-755). -/
def extract_audio (rn : Str) : Str :=
  match (bracketContents rn).findSome? audioFromContent with
  | some s => s
  | none =>
    match findFirst matchAudioVerAt rn with
    | some (fmt, ch) =>
      (if eqListCI fmt "Dolby Digital Plus".data then "DDP".data else fmt) ++ ' ' :: ch
    | none =>
      match findFirst matchAudioBareAt rn with
      | some fmt => if eqListCI fmt "Dolby Digital Plus".data then "DDP".data else fmt
      | none =>
        if !(hasSub "[".data rn) then
          match audioFormatsList.find? (fun a => hasSub a rn) with
          | some a => a
          | none => []
        else []

/-! ## Device / OS / version (`extract_device`, `extract_os`,
`extract_version`, parser.rs 757-793) -/

def devicesList : List Str :=
  ["XBOX", "XBOX360", "XBOXONE", "PS2", "PS3", "PS4", "PS5",
   "Wii", "WiiU", "Switch", "PSP", "NDS", "3DS"].map String.data

def extract_device (rn : Str) : Str :=
  match devicesList.find? (fun d => hasSub d rn) with
  | some d => d
  | none => []

def osCatalog : List Str :=
  ["Linux", "Windows", "MacOS", "OSX", "Unix",
   "Android", "iOS", "WinXP", "Win7", "Win8", "Win10", "Win11"].map String.data

def extract_os (rn : Str) : Str :=
  match osCatalog.find? (fun o => hasSub o rn) with
  | some o => o
  | none => []

/-- `(?:\.\d+)*` (greedy), appended to the version capture. -/
def versTailF : Nat → Str → Str
  | 0, _ => []
  | Nat.succ f, l =>
    match l with
    | '.' :: t =>
      (match digPlusS t with
       | some (ds, rest) => '.' :: ds ++ versTailF f rest
       | none => [])
    | _ => []

/-- `(?i)v(\d+(?:\.\d+)*)` at one position. -/
def matchVersionAt (_ : Option Char) (l : Str) : Option Str :=
  chI 'v' (fun r1 =>
    match digPlusS r1 with
    | some (d1, r2) => some (d1 ++ versTailF r2.length r2)
    | none => none) l

def extract_version (rn : Str) : Str :=
  match findFirst matchVersionAt rn with
  | some v => v
  | none => []

/-! ## Languages (`extract_languages`, parser.rs 795-871).  The `HashMap` is
an association list; `insertKV` is `HashMap::insert` (replace), `entryOr` is
`entry().or_insert_with()`. -/

def containsKey (m : List (Str × Str)) (k : Str) : Bool := m.any (fun p => p.1 = k)

def insertKV (m : List (Str × Str)) (k v : Str) : List (Str × Str) :=
  if containsKey m k then m.map (fun p => if p.1 = k then (k, v) else p) else m ++ [(k, v)]

def entryOr (m : List (Str × Str)) (k v : Str) : List (Str × Str) :=
  if containsKey m k then m else m ++ [(k, v)]

def lowerStr (l : Str) : Str := l.map Char.toLower

def langCodes : List (Str × Str) :=
  ([("DE", "German"), ("EN", "English"), ("Eng", "English"), ("FR", "French"),
    ("ES", "Spanish"), ("IT", "Italian"), ("PT", "Portuguese"),
    ("RU", "Russian"), ("NL", "Dutch"), ("PL", "Polish"),
    ("SV", "Swedish"), ("NO", "Norwegian"), ("DA", "Danish"),
    ("FI", "Finnish"), ("JA", "Japanese"), ("ZH", "Chinese"),
    ("KO", "Korean"), ("AR", "Arabic"), ("TR", "Turkish")].map
    (fun p => (p.1.data, p.2.data)))

def langMap : List (Str × Str) :=
  ([("German", "de"), ("GERMAN", "de"), ("English", "en"), ("ENGLISH", "en"),
    ("French", "fr"), ("FRENCH", "fr"), ("Spanish", "es"), ("SPANISH", "es"),
    ("Italian", "it"), ("ITALIAN", "it"), ("iTALiAN", "it"), ("Portuguese", "pt"),
    ("PORTUGUESE", "pt"),
    ("Russian", "ru"), ("RUSSIAN", "ru"), ("Dutch", "nl"), ("DUTCH", "nl"),
    ("Polish", "pl"), ("POLISH", "pl"), ("Swedish", "sv"), ("SWEDiSH", "sv"),
    ("Norwegian", "no"), ("NORWEGiAN", "no"), ("NORDiC", "no"), ("Nordic", "no"),
    ("Danish", "da"), ("DANISH", "da"), ("Finnish", "fi"), ("FINNISH", "fi"),
    ("Japanese", "ja"), ("JAPANESE", "ja"), ("Chinese", "zh"), ("CHINESE", "zh"),
    ("Korean", "ko"), ("KOREAN", "ko"), ("Arabic", "ar"), ("ARABIC", "ar"),
    ("Turkish", "tr"), ("TURKISH", "tr")].map
    (fun p => (p.1.data, p.2.data)))

def countryCodes : List (Str × Str) :=
  ([("CA", "Canadian"), ("US", "US"), ("UK", "UK"), ("AU", "Australian"),
    ("DE", "German"), ("FR", "French"), ("ES", "Spanish"), ("IT", "Italian"),
    ("JP", "Japanese"), ("CN", "Chinese"), ("KR", "Korean")].map
    (fun p => (p.1.data, p.2.data)))

/-- `\(([A-Z]{2})\)` at one position. -/
def matchCountryAt (_ : Option Char) (l : Str) : Option (Nat × Str) :=
  match l with
  | '(' :: a :: b :: ')' :: _ =>
    if isUpperA a && isUpperA b then some (4, [a, b]) else none
  | _ => none

/-- `ReleaseParser::extract_languages` (parser.rs 795-871). -/
def extract_languages (rn : Str) : List (Str × Str) :=
  let m1 := langCodes.foldl
    (fun m p =>
      if p.1 = "Eng".data then
        (if hasSub "[Eng]".data rn || hasSub "[Eng.Hard.Sub]".data rn then
          insertKV m "en".data p.2
        else m)
      else if hasSub ('[' :: p.1 ++ [']']) rn then insertKV m (lowerStr p.1) p.2
      else m)
    []
  let m2 := langMap.foldl
    (fun m p =>
      if hasSub p.1 rn && !(containsKey m p.2) then m ++ [(p.2, p.1)] else m)
    m1
  let m3 :=
    if hasSub "Multi".data rn || hasSub "MULTI".data rn ||
        hasSub "MultiSub".data rn || hasSub "Multi-Subs".data rn then
      insertKV m2 "multi".data "Multilingual".data
    else m2
  (matchList matchCountryAt rn).foldl
    (fun m code =>
      countryCodes.foldl
        (fun m p => if eqListCI code p.1 then entryOr m (lowerStr p.1) p.2 else m) m)
    m3

/-! ## Flags (`extract_flags`, parser.rs 873-932).  Each `(name, pattern)`
pair of the source becomes a `(name, matcher)` pair; `extract_flags` pushes
the name of every pattern that matches, in catalog order. -/

/-- `\.?` (greedy optional dot). -/
def optDot {a : Type} (cont : Str -> Option a) (l : Str) : Option a :=
  match l with
  | '.' :: t =>
    (match cont t with
     | some x => some x
     | none => cont ('.' :: t))
  | _ => cont l

/-- An optional apostrophe (greedy, with backtracking). -/
def optApos {a : Type} (cont : Str -> Option a) (l : Str) : Option a :=
  match l with
  | c :: t =>
    if c = apos then
      (match cont t with
       | some x => some x
       | none => cont (c :: t))
    else cont (c :: t)
  | [] => cont []

/-- Whole-string search with a position matcher that ignores the previous
character. -/
def searchPat (f : Str -> Option Unit) (rn : Str) : Bool :=
  (findFirst (fun _ l => f l) rn).isSome

def unitOk : Str -> Option Unit := fun _ => some ()

/-- `(?i)READ\.?NFO`. -/
def hasPatReadNfo (rn : Str) : Bool :=
  searchPat (litI "READ".data (optDot (litI "NFO".data unitOk))) rn

/-- `(?i)TV\.?Dubbed`. -/
def hasPatTvDubbed (rn : Str) : Bool :=
  searchPat (litI "TV".data (optDot (litI "Dubbed".data unitOk))) rn

/-- `(?i)(?:Hard\.?Sub|HardSub)`. -/
def hasPatHardSub (rn : Str) : Bool :=
  searchPat (fun l =>
    altList
      [ litI "Hard".data (optDot (litI "Sub".data unitOk)),
        litI "HardSub".data unitOk ] l) rn

/-- The Director-s-Cut pattern: `Director`, an optional apostrophe, `s`, an optional dot, `Cut` (case-insensitive). -/
def hasPatDirCut (rn : Str) : Bool :=
  searchPat (litI "Director".data (optApos (chI 's' (optDot (litI "Cut".data unitOk))))) rn

/-- The Collector-s-Edition pattern: `Collector`, an optional apostrophe, `s`, an optional dot, `Edition` (case-insensitive). -/
def hasPatCollEdition (rn : Str) : Bool :=
  searchPat
    (litI "Collector".data (optApos (chI 's' (optDot (litI "Edition".data unitOk))))) rn

/-- `(?i){w}\.?Edition`. -/
def hasPatWordEdition (w : Str) (rn : Str) : Bool :=
  searchPat (litI w (optDot (litI "Edition".data unitOk))) rn

/-- `(?i)IMAX\s+HYBRID`. -/
def hasPatImaxHybrid (rn : Str) : Bool :=
  searchPat (litI "IMAX".data (wsP (litI "HYBRID".data unitOk))) rn

def dirCutName : Str := "Director".data ++ apos :: "s Cut".data

def collEditionName : Str := "Collector".data ++ apos :: "s Edition".data

def flagPatterns : List (Str × (Str -> Bool)) :=
  [ ("READNFO".data, hasPatReadNfo),
    ("READNFO".data, hasSubCI "READNFO".data),
    ("PROPER".data, hasSubCI "PROPER".data),
    ("REPACK".data, hasSubCI "REPACK".data),
    ("RERIP".data, hasSubCI "RERIP".data),
    ("INTERNAL".data, wbSearch "INTERNAL".data),
    ("iNTERNAL".data, wbSearch "iNTERNAL".data),
    ("TV Dubbed".data, hasPatTvDubbed),
    ("Dubbed".data, wbSearch "Dubbed".data),
    ("Subbed".data, wbSearch "Subbed".data),
    ("Hard Sub".data, hasPatHardSub),
    ("MultiSub".data, hasSubCI "MultiSub".data),
    ("Multi-Subs".data, hasSubCI "Multi-Subs".data),
    ("Uncut".data, wbSearch "Uncut".data),
    (dirCutName, hasPatDirCut),
    ("Extended".data, wbSearch "Extended".data),
    ("Limited".data, wbSearch "Limited".data),
    ("Limited Edition".data, hasPatWordEdition "Limited".data),
    ("Special Edition".data, hasPatWordEdition "Special".data),
    (collEditionName, hasPatCollEdition),
    ("Ultimate Edition".data, hasPatWordEdition "Ultimate".data),
    ("IMAX".data, wbSearch "IMAX".data),
    ("IMAX HYBRID".data, hasPatImaxHybrid),
    ("3D".data, fun rn => hasSubCI "[3D]".data rn || wbSearch "3D".data rn),
    ("10bit".data, fun rn => hasSubCI "[10bit]".data rn || wbSearch "10bit".data rn),
    ("REMASTERED".data, hasSubCI "REMASTERED".data),
    ("ANiME".data, hasSubCI "ANiME".data),
    ("NUKED".data, hasSubCI "NUKED".data),
    ("DUPE".data, hasSubCI "DUPE".data),
    ("RETAIL".data, hasSubCI "RETAIL".data),
    ("RERIP".data, hasSubCI "RERIP".data),
    ("NFOFIX".data, hasSubCI "NFOFIX".data),
    ("COMPLETE".data, hasSubCI "COMPLETE".data),
    ("FESTIVAL".data, hasSubCI "FESTIVAL".data),
    ("STV".data, wbSearch "STV".data),
    ("SUBBED".data, wbSearch "SUBBED".data),
    ("DUBBED".data, wbSearch "DUBBED".data) ]

/-- `ReleaseParser::extract_flags` (parser.rs 873-932). -/
def extract_flags (rn : Str) : List Str :=
  (flagPatterns.filter (fun p => p.2 rn)).map Prod.fst

/-! ## HDR (`extract_hdr`, parser.rs 1683-1699) -/

def extract_hdr (rn : Str) : Str :=
  if hasSub "DV HDR10Plus".data rn || hasSub "DV.HDR10Plus".data rn then
    "DV HDR10Plus".data
  else if hasSub "HDR10Plus".data rn then "HDR10Plus".data
  else if hasSub "DV HDR10".data rn || hasSub "DV.HDR10".data rn then "DV HDR10".data
  else if hasSub "HDR10".data rn then "HDR10".data
  else []

/-! ## Streaming provider (`extract_streaming_provider`, parser.rs 1701-1794).
The provider catalog below is the `providers` vec of the source; the same
literal list also forms the trailing section of the `remove_list` of
`extract_title`. -/

def streamingProviders : List Str :=
  ["9NOW", "A3P", "AE", "ABC", "AJAZ", "ALL4",
    "AMC", "AMZN", "Amazon", "Prime Video", "Prime", "ANLB",
    "ANPL", "APPS", "ARD", "AS", "ATVP", "Apple TV+",
    "AppleTV", "Apple", "AUBC", "BCORE", "BK", "BNGE",
    "BOOM", "BRAV", "CBC", "CBS", "CC", "CHGD",
    "CLBI", "CMAX", "Cinemax", "CMOR", "CMT", "CN",
    "CNBC", "CNLP", "COOK", "CR", "Crunchyroll", "CRAV",
    "CRIT", "CRKL", "CRKI", "CSPN", "CTV", "CUR",
    "CW", "CWS", "DCU", "DDY", "DEST", "DF",
    "DISC", "Discovery", "Discovery+", "Discovery Plus", "DIY", "DPLY",
    "DRPO", "DRTV", "DSCP", "DSNP", "Disney+", "DisneyPlus",
    "Disney", "DTV", "DW", "DLWP", "EPIX", "ESPN",
    "ESPN+", "ESPN Plus", "ESQ", "ETTV", "ETV", "FAH",
    "FAM", "FBWatch", "FJR", "FOOD", "FOX", "FPT",
    "FREE", "FTV", "FUNI", "Funimation", "FXTL", "FYI",
    "GC", "GLBL", "GLOB", "GLBO", "GO90", "GPLAY",
    "Google Play", "PLAY", "HBO", "HBO Max", "HMAX", "MAX",
    "Max", "HGTV", "HIDI", "HIDIVE", "HIST", "HLMK",
    "HPLAY", "HTSR", "HS", "HULU", "Hulu", "iP",
    "BBC iPlayer", "BBC", "iQIYI", "iT", "iTunes", "ITV",
    "ITVX", "JC", "KAYO", "KNOW", "KNPY", "KS",
    "LGP", "LIFE", "LN", "MA", "Movies Anywhere", "MBC",
    "MMAX", "MNBC", "MS", "Microsoft Store", "MTOD", "MTV",
    "MUBI", "MY5", "NATG", "NBA", "NBC", "NBLA",
    "NF", "Netflix", "NFL", "NFLN", "NICK", "NOW",
    "NRK", "ODK", "OPTO", "OSN", "OXGN", "PBS",
    "PBSK", "PCOK", "Peacock", "PLUZ", "PMNT", "PMTP",
    "Paramount+", "Paramount Plus", "Paramount", "POGO", "PSN", "PlayStation Network",
    "PUHU", "QIBI", "RED", "YouTube Premium", "YouTube Red", "RKTN",
    "ROKU", "RSTR", "RTE", "RTP", "RTPPLAY", "SAINA",
    "SP", "SBS", "SESO", "SHDR", "SHMI", "SHO",
    "Showtime", "Showtime Anytime", "SKST", "SkyShowtime", "SLNG", "SNET",
    "SNXT", "SPIK", "SPRT", "SS", "STAN", "STRP",
    "STZ", "STARZ", "Starz", "SVT", "SYFY", "TEN",
    "TIMV", "TK", "TLC", "TOU", "TRVL", "TUBI",
    "TV2", "TV3", "TV4", "TVING", "TVL", "TVNZ",
    "UFC", "UKTV", "UNIV", "USAN", "VH1", "VIAP",
    "Viaplay", "VICE", "VIKI", "VIU", "VLCT", "VMEO",
    "Vimeo", "VRV", "VTRN", "WAVVE", "WNET", "WTCH",
    "WWEN", "WWE Network", "XBOX", "Xbox Video", "YT", "YouTube",
    "YouTube Movies", "YouTube TV", "ZDF", "ABMA", "ADN", "ANIMAX",
    "AO", "AT-X", "ATX", "Baha", "B-Global", "Bstation",
    "BSP", "NHK-BSP", "BS4", "BS5", "EX-BS", "BS-EX",
    "BS6", "BS7", "BSJ", "BS-TX", "BS8", "BS-Fuji",
    "BS11", "BS12", "CS-Fuji ONE", "CX", "DMM", "EX",
    "CS3", "EX-CS1", "CS-EX1", "CSA", "FOD", "FUNi",
    "KBC", "M-ON!", "MX", "NHKG", "NHKE", "NTV",
    "TBS", "TX", "UNXT", "U-NEXT", "WAKA", "Wakanim",
    "WOWOW", "Wowow", "YTV"].map String.data

/-- `(?i)\[AMZN\s+WEBDL` at one position. -/
def matchAmznBrackAt (_ : Option Char) (l : Str) : Option Unit :=
  chC '[' (litI "AMZN".data (wsP (litI "WEBDL".data unitOk))) l

def webTailAlt : Str -> Option Unit := fun l =>
  altList
    [ litI "WEB-DL".data unitOk,
      litI "WEBRip".data unitOk,
      litI "WEBDL".data unitOk ] l

/-- `(?i)(\d+p)\.([A-Z0-9]+)\.(?:WEB-DL|WEBRip|WEBDL)` at one position,
returning the provider capture in its input spelling (the `(?i)` makes the
class match lower-case letters as well). -/
def matchResProvAt (_ : Option Char) (l : Str) : Option Str :=
  match digPlusS l with
  | some (_, r1) =>
    chI 'p' (fun r2 =>
      chC '.' (fun r3 =>
        let prov := r3.takeWhile isAlnumA
        if prov ≠ [] then
          (match r3.drop prov.length with
           | '.' :: r4 => (webTailAlt r4).map (fun _ => prov)
           | _ => none)
        else none) r2) r1
  | none => none

/-- `(?i)\bCR\s+(?:WEB-DL|WEBRip|WEBDL)` at one position. -/
def matchCRAt (prev : Option Char) (l : Str) : Option Unit :=
  if wOpt prev then none
  else litI "CR".data (wsP webTailAlt) l

/-- `(?i)\bNF\s+(?:WEB-DL|WEBRip|WEBDL)` at one position. -/
def matchNFAt (prev : Option Char) (l : Str) : Option Unit :=
  if wOpt prev then none
  else litI "NF".data (wsP webTailAlt) l

def provAfterPatterns (rn : Str) : Str :=
  if (findFirst matchCRAt rn).isSome then "CR".data
  else if (findFirst matchNFAt rn).isSome then "NF".data
  else
    match streamingProviders.find? (fun p => wbSearch p rn) with
    | some p => p
    | none =>
      if hasSub "AMZN WEBDL".data rn || hasSub "AMZN.WEBDL".data rn then "AMZN".data
      else []

/-- `ReleaseParser::extract_streaming_provider` (parser.rs 1701-1794). -/
def extract_streaming_provider (rn : Str) : Str :=
  if (findFirst matchAmznBrackAt rn).isSome then "AMZN".data
  else
    match findFirst matchResProvAt rn with
    | some prov =>
      (match streamingProviders.find? (fun k => eqListCI prov k) with
       | some k => k
       | none =>
         if 2 ≤ prov.length && prov.length ≤ 6 &&
             prov.all (fun c => c.isUpper || c.isDigit) then prov
         else provAfterPatterns rn)
    | none => provAfterPatterns rn

/-! ## Title extraction: shared pieces (`clean_title` and the `replace_all`
patterns of `extract_title`, parser.rs 934-1563, 1797-1812) -/

/-- `\(\s*\)` at one position (consumed length). -/
def matchEmptyParenAt (_ : Option Char) (l : Str) : Option Nat :=
  match l with
  | '(' :: r1 =>
    let ws := r1.takeWhile isWS
    (match r1.drop ws.length with
     | ')' :: _ => some (ws.length + 2)
     | _ => none)
  | _ => none

/-- `\[\s*\]` at one position. -/
def matchEmptyBrackAt (_ : Option Char) (l : Str) : Option Nat :=
  match l with
  | '[' :: r1 =>
    let ws := r1.takeWhile isWS
    (match r1.drop ws.length with
     | ']' :: _ => some (ws.length + 2)
     | _ => none)
  | _ => none

/-- `\[\s+\]` at one position. -/
def matchWSBrackAt (_ : Option Char) (l : Str) : Option Nat :=
  match l with
  | '[' :: r1 =>
    let ws := r1.takeWhile isWS
    if ws ≠ [] then
      (match r1.drop ws.length with
       | ']' :: _ => some (ws.length + 2)
       | _ => none)
    else none
  | _ => none

/-- `clean_title` (parser.rs 1797-1812). -/
def clean_title (title : Str) : Str :=
  let cleaned := collapseWS title
  let cleaned := replA matchEmptyParenAt spc cleaned
  let cleaned := replA matchEmptyBrackAt spc cleaned
  trimStr cleaned

/-- `\.(19|20|21)\d{2}(?:\.|$)` at one position. -/
def matchYearDotAt (_ : Option Char) (l : Str) : Option Nat :=
  match l with
  | '.' :: t =>
    if swCS "19".data t || swCS "20".data t || swCS "21".data t then
      match tryDigExact 4 t with
      | some (_, rest) =>
        (match rest with
         | '.' :: _ => some 6
         | [] => some 5
         | _ => none)
      | none => none
    else none
  | _ => none

/-- `(19|20|21)\d{2}$` at one position. -/
def matchYearEndAt (_ : Option Char) (l : Str) : Option Nat :=
  if swCS "19".data l || swCS "20".data l || swCS "21".data l then
    match tryDigExact 4 l with
    | some (_, []) => some 4
    | _ => none
  else none

/-- `\s*\(\d{4}\)\s*` at one position. -/
def matchWsParenYearAt (_ : Option Char) (l : Str) : Option Nat :=
  let w1 := l.takeWhile isWS
  match l.drop w1.length with
  | '(' :: r1 =>
    (match tryDigExact 4 r1 with
     | some (_, rest) =>
       (match rest with
        | ')' :: r2 => some (w1.length + 6 + (r2.takeWhile isWS).length)
        | _ => none)
     | none => none)
  | _ => none

/-- `\s*\{tag\d+\}\s*` at one position, for `tag` one of `tmdb-`, `tvdb-`,
`imdb-tt`. -/
def matchWsBraceIdAt (tag : Str) (_ : Option Char) (l : Str) : Option Nat :=
  let w1 := l.takeWhile isWS
  match l.drop w1.length with
  | c :: r1 =>
    if c = lbrace && swCS tag r1 then
      let r2 := r1.drop tag.length
      match digPlusS r2 with
      | some (ds, r3) =>
        (match r3 with
         | d :: r4 =>
           if d = rbrace then
             some (w1.length + 1 + tag.length + ds.length + 1 + (r4.takeWhile isWS).length)
           else none
         | [] => none)
      | none => none
    else none
  | [] => none

/-- `\{tag\d+\}` at one position (no surrounding `\s*`). -/
def matchBraceIdLenAt (tag : Str) (_ : Option Char) (l : Str) : Option Nat :=
  match l with
  | c :: r1 =>
    if c = lbrace && swCS tag r1 then
      let r2 := r1.drop tag.length
      match digPlusS r2 with
      | some (ds, r3) =>
        (match r3 with
         | d :: _ => if d = rbrace then some (1 + tag.length + ds.length + 1) else none
         | [] => none)
      | none => none
    else none
  | [] => none

/-- `\[word(?:id)?-\d+\]` (with a `tt` prefix on the digits when `tt` is
set), returning the consumed length. -/
def matchBrackIdLen (word : Str) (tt : Bool) (l : Str) : Option Nat :=
  match l with
  | '[' :: r1 =>
    if swCS word r1 then
      let r2 := r1.drop word.length
      let rest2 := fun (idlen : Nat) (r : Str) =>
        match r with
        | '-' :: r3 =>
          (match (if tt then (if swCS "tt".data r3 then some (r3.drop 2) else none)
                  else some r3) with
           | some r5 =>
             (match digPlusS r5 with
              | some (ds, r6) =>
                (match r6 with
                 | ']' :: _ =>
                   some (1 + word.length + idlen + 1 + (if tt then 2 else 0) +
                     ds.length + 1)
                 | _ => none)
              | none => none)
           | none => none)
        | _ => none
      (match (if swCS "id".data r2 then rest2 2 (r2.drop 2) else none) with
       | some n => some n
       | none => rest2 0 r2)
    else none
  | _ => none

/-- `\s*\{edition-[^}]+\}\s*` at one position. -/
def matchWsEditionAt (_ : Option Char) (l : Str) : Option Nat :=
  let w1 := l.takeWhile isWS
  match l.drop w1.length with
  | c :: r1 =>
    if c = lbrace && swCS "edition-".data r1 then
      let r2 := r1.drop 8
      let content := r2.takeWhile (fun x => x ≠ rbrace)
      if content ≠ [] then
        match r2.drop content.length with
        | d :: r4 =>
          if d = rbrace then
            some (w1.length + 9 + content.length + 1 + (r4.takeWhile isWS).length)
          else none
        | [] => none
      else none
    else none
  | [] => none

/-- `\{edition-[^}]+\}` at one position. -/
def matchBraceEditionLenAt (_ : Option Char) (l : Str) : Option Nat :=
  match l with
  | c :: r1 =>
    if c = lbrace && swCS "edition-".data r1 then
      let r2 := r1.drop 8
      let content := r2.takeWhile (fun x => x ≠ rbrace)
      if content ≠ [] then
        match r2.drop content.length with
        | d :: _ => if d = rbrace then some (9 + content.length + 1) else none
        | [] => none
      else none
    else none
  | [] => none

/-- `\d{lo,hi}` keeping the digit string, greedy with backtracking. -/
def bdLHs {α : Type} (lo : Nat) (cont : Str → Str → Option α) : Nat → Str → Option α
  | 0, _ => none
  | Nat.succ h, l =>
    if lo ≤ Nat.succ h then
      match exactDigStr (Nat.succ h) l with
      | some (ds, rest) =>
        (match cont ds rest with
         | some a => some a
         | none => bdLHs lo cont h l)
      | none => bdLHs lo cont h l
    else none

/-- `\d{1,k}` at the end of a pattern (greedy, no following constraint). -/
def digUpTo (k : Nat) (l : Str) : Option Str :=
  let ds := (l.take k).takeWhile isDig
  if ds = [] then none else some ds

/-- `(?i)S\d{1,2}E\d{1,3}(?:-E\d{1,3})?` with the consumed length. -/
def matchSEFullLenAt (_ : Option Char) (l : Str) : Option Nat :=
  chI 'S' (fun r1 =>
    bdLHs 1 (fun sd r2 =>
      chI 'E' (fun r3 =>
        bdLHs 1 (fun ed r4 =>
          let base := 1 + sd.length + 1 + ed.length
          match (match r4 with
                 | '-' :: r5 =>
                   chI 'E' (fun r6 =>
                     bdLHs 1 (fun ed2 _ => some (base + 2 + ed2.length)) 3 r6) r5
                 | _ => none) with
          | some n => some n
          | none => some base) 3 r3) r2) 2 r1) l

/-- `(?i)E\d{1,3}E\d{1,3}` with the consumed length. -/
def matchE2LenAt (_ : Option Char) (l : Str) : Option Nat :=
  chI 'E' (fun r1 =>
    bdLHs 1 (fun d1 r2 =>
      chI 'E' (fun r3 =>
        bdLHs 1 (fun d2 _ => some (2 + d1.length + d2.length)) 3 r3) r2) 3 r1) l

/-- `(?i)\bE\d{3,}\b` with the consumed length. -/
def matchE3PlusLenAt (prev : Option Char) (l : Str) : Option Nat :=
  if wOpt prev then none
  else
    match l with
    | c :: t =>
      if eqCI c 'E' then
        let ds := t.takeWhile isDig
        if 3 ≤ ds.length && !(wOpt (t.drop ds.length).head?) then some (1 + ds.length)
        else none
      else none
    | [] => none

/-- `(?i)S\d{1,2}\s*-\s*\d{1,3}` with the consumed length. -/
def matchSDashLenAt (_ : Option Char) (l : Str) : Option Nat :=
  chI 'S' (fun r1 =>
    bdLHs 1 (fun d1 r2 =>
      let w1 := r2.takeWhile isWS
      (match r2.drop w1.length with
       | '-' :: r3 =>
         let w2 := r3.takeWhile isWS
         (match digUpTo 3 (r3.drop w2.length) with
          | some ds => some (1 + d1.length + w1.length + 1 + w2.length + ds.length)
          | none => none)
       | _ => none)) 2 r1) l

/-- `(?i)\d{1,2}x\d{1,3}` with the consumed length. -/
def matchNxMLenAt (_ : Option Char) (l : Str) : Option Nat :=
  bdLHs 1 (fun d1 r2 =>
    chI 'x' (fun r3 =>
      (digUpTo 3 r3).map (fun ds => d1.length + 1 + ds.length)) r2) 2 l

/-- `(?i)Season\s*\d{1,2}\s*Episode\s*\d{1,3}` with the consumed length. -/
def matchSeasonWordLenAt (_ : Option Char) (l : Str) : Option Nat :=
  litI "Season".data (fun r1 =>
    let w1 := r1.takeWhile isWS
    bdLHs 1 (fun d1 r3 =>
      let w2 := r3.takeWhile isWS
      litI "Episode".data (fun r5 =>
        let w3 := r5.takeWhile isWS
        (digUpTo 3 (r5.drop w3.length)).map
          (fun ds => 6 + w1.length + d1.length + w2.length + 7 + w3.length + ds.length))
        (r3.drop w2.length)) 2 (r1.drop w1.length)) l

/-- `\d+p` occurring inside a parenthesis region. -/
def hasDigitsP : Str → Bool
  | [] => false
  | c :: t =>
    (if isDig c then
      (match (c :: t).dropWhile isDig with
       | 'p' :: _ => true
       | _ => false)
     else false) || hasDigitsP t

def parenMetaTokens : List Str :=
  ["WEB-DL", "WEBRip", "WEBDL", "CR", "NF", "AMZN", "H264", "H265", "H.264",
   "H.265", "AAC", "DDP", "2.0", "5.1"].map String.data

/-- `\([^)]*(?:\d+p|WEB-DL|…|5\.1)[^)]*\)` with the consumed length. -/
def matchParenMetaAt (_ : Option Char) (l : Str) : Option Nat :=
  match l with
  | '(' :: r1 =>
    let region := r1.takeWhile (fun c => c ≠ ')')
    (match r1.drop region.length with
     | ')' :: _ =>
       if hasDigitsP region || parenMetaTokens.any (fun w => hasSub w region) then
         some (region.length + 2)
       else none
     | _ => none)
  | _ => none

/-- `(?i)READ\.?NFO` with the consumed length. -/
def matchReadNfoLenAt (_ : Option Char) (l : Str) : Option Nat :=
  litI "READ".data (fun r1 =>
    match (match r1 with
           | '.' :: t => litI "NFO".data (fun _ => some 8) t
           | _ => none) with
    | some n => some n
    | none => litI "NFO".data (fun _ => some 7) r1) l

/-- `(?i)DDP\d+\.\d+` with the consumed length. -/
def matchDdpVerLenAt (_ : Option Char) (l : Str) : Option Nat :=
  litI "DDP".data (fun r1 =>
    match digPlusS r1 with
    | some (d1, r2) =>
      (match r2 with
       | '.' :: r3 =>
         (match digPlusS r3 with
          | some (d2, _) => some (3 + d1.length + 1 + d2.length)
          | none => none)
       | _ => none)
    | none => none) l

/-- `(?i)\bDDP\d+\b` with the consumed length. -/
def matchDdpIntLenAt (prev : Option Char) (l : Str) : Option Nat :=
  if wOpt prev then none
  else
    litI "DDP".data (fun r1 =>
      match digPlusS r1 with
      | some (d1, r2) => if wOpt r2.head? then none else some (3 + d1.length)
      | none => none) l

/-- `(?i)Episode\s+\d+` with the consumed length. -/
def matchEpisodeNumLenAt (_ : Option Char) (l : Str) : Option Nat :=
  litI "Episode".data (fun r1 =>
    match r1 with
    | x :: t =>
      if isWS x then
        let wsr := t.dropWhile isWS
        (digPlusS wsr).map (fun pr => 7 + (1 + (t.length - wsr.length)) + pr.1.length)
      else none
    | [] => none) l

def audioVerWords : List Str := ["AAC", "AC3", "DTS", "DDP"].map String.data

/-- `(?i)\b(?:AAC|AC3|DTS|DDP)\s+\d+\.\d+\b` with the consumed length. -/
def matchAudioVerWordLenAt (prev : Option Char) (l : Str) : Option Nat :=
  if wOpt prev then none
  else
    audioVerWords.findSome? (fun w =>
      if swCI w l then
        (match l.drop w.length with
         | x :: t =>
           if isWS x then
             let wsr := t.dropWhile isWS
             (match digPlusS wsr with
              | some (d1, r2) =>
                (match r2 with
                 | '.' :: r3 =>
                   (match digPlusS r3 with
                    | some (d2, r4) =>
                      if wOpt r4.head? then none
                      else some (w.length + 1 + (t.length - wsr.length) + d1.length +
                        1 + d2.length)
                    | none => none)
                 | _ => none)
              | none => none)
           else none
         | [] => none)
      else none)

def extsList : List Str :=
  ["mkv", "mp4", "avi", "mov", "wmv", "flv", "webm", "m4v"].map String.data

/-- `\.(mkv|mp4|avi|mov|wmv|flv|webm|m4v)$` with the consumed length. -/
def matchExtAt (_ : Option Char) (l : Str) : Option Nat :=
  match l with
  | '.' :: t => extsList.findSome? (fun e => if t = e then some (e.length + 1) else none)
  | _ => none

/-- `\[\d{6,}\]` with the consumed length. -/
def matchBigNumBrackAt (_ : Option Char) (l : Str) : Option Nat :=
  match l with
  | '[' :: r1 =>
    let ds := r1.takeWhile isDig
    if 6 ≤ ds.length then
      (match r1.drop ds.length with
       | ']' :: _ => some (ds.length + 2)
       | _ => none)
    else none
  | _ => none

/-- `(?i)\bDDP\d+\s+\d+\b` with the consumed length. -/
def matchDdpSplitAt (prev : Option Char) (l : Str) : Option Nat :=
  if wOpt prev then none
  else
    litI "DDP".data (fun r1 =>
      match digPlusS r1 with
      | some (d1, r2) =>
        (match r2 with
         | x :: t =>
           if isWS x then
             let wsr := t.dropWhile isWS
             (match digPlusS wsr with
              | some (d2, r3) =>
                if wOpt r3.head? then none
                else some (3 + d1.length + 1 + (t.length - wsr.length) + d2.length)
              | none => none)
           else none
         | [] => none)
      | none => none) l

/-- `\s*\([A-Z]{2}\)\s*$` with the consumed length. -/
def matchCountryEndAt (_ : Option Char) (l : Str) : Option Nat :=
  let w1 := l.takeWhile isWS
  match l.drop w1.length with
  | '(' :: a :: b :: ')' :: r4 =>
    if isUpperA a && isUpperA b && r4.dropWhile isWS = [] then some l.length else none
  | _ => none

/-- The word-boundary / dot-boundary triple alternation
`(?i)\b{it}\b|\.{it}\b|\b{it}\.` used by the `remove_list` loop. -/
def tripleAt (it : Str) (prev : Option Char) (l : Str) : Option Nat :=
  match it, it.getLast? with
  | a :: _, some z =>
    let alt1 :=
      if Bool.xor (wOpt prev) (isWordChar a) && swCI it l &&
          Bool.xor (isWordChar z) (wOpt (l.drop it.length).head?) then some it.length
      else none
    let alt2 :=
      match l with
      | '.' :: t =>
        if swCI it t && Bool.xor (isWordChar z) (wOpt (t.drop it.length).head?) then
          some (it.length + 1)
        else none
      | _ => none
    let alt3 :=
      if Bool.xor (wOpt prev) (isWordChar a) && swCI it l &&
          (l.drop it.length).head? = some '.' then some (it.length + 1)
      else none
    (alt1.orElse (fun _ => alt2)).orElse (fun _ => alt3)
  | _, _ => none

/-! ## Title extraction (`extract_title`, parser.rs 934-1563) -/

/-- `(.+?)` followed by the rest of a pattern: try split points from the
shortest group (lazy), never crossing a newline; the captured group and the
payload of the continuation are returned. -/
def lazyCap {a : Type} (p : Str -> Option a) : Str -> Str -> Option (Str × a)
  | _, [] => none
  | accR, c :: t =>
    if dotChar c then
      (match p t with
       | some x => some ((c :: accR).reverse, x)
       | none => lazyCap p (c :: accR) t)
    else none

/-- Leftmost match of `(.+?)…`: the engine tries every start position; a
later start only helps once a newline has been skipped. -/
def findLazySplit {a : Type} (p : Str -> Option a) (rn : Str) : Option (Str × a) :=
  findFirst (fun _ l => lazyCap p [] l) rn

/-- `S\d{1,2}E\d{1,3}` in CPS (with digit backtracking against the
continuation). -/
def seInner {a : Type} (cont : Str -> Option a) : Str -> Option a := fun l =>
  chI 'S' (fun r1 =>
    bdLH 1 (fun _ r2 =>
      chI 'E' (fun r3 =>
        bdLH 1 (fun _ r4 => cont r4) 3 r3) r2) 2 r1) l

def t1StopWords : List Str :=
  ["German", "English", "French", "Spanish", "Italian", "Portuguese", "Russian",
   "Dutch", "Polish", "Swedish", "Norwegian", "Danish", "Finnish", "Japanese",
   "Chinese", "Korean", "Arabic", "Turkish", "NORDiC", "SWEDiSH", "NORWEGiAN",
   "GERMAN", "ANiME", "DL", "BluRay", "BDRip", "DVDRip", "WEB-DL", "HDTV",
   "1080p", "720p", "480p", "x264", "x265", "h264", "h265", "HEVC", "AVC"].map
    String.data

/-- The stop alternation of the first dot-separated pattern (parser.rs 944),
which also accepts a bare `\d{4}` year. -/
def t1StopAlt (l : Str) : Option Unit :=
  match t1StopWords.findSome? (fun w => if swCI w l then some () else none) with
  | some u => some u
  | none => (exactDigStr 4 l).map (fun _ => ())

/-- The stop alternation of the second dot-separated pattern (parser.rs 972),
without the year. -/
def t2StopAlt (l : Str) : Option Unit :=
  t1StopWords.findSome? (fun w => if swCI w l then some () else none)

def t3StopWords : List Str :=
  ["1080p", "720p", "480p", "VIU", "WEB-DL", "WEBDL", "WEBRip", "H264", "H265",
   "H.264", "H.265", "x264", "x265", "h264", "h265", "HEVC", "AVC", "AAC",
   "AC3", "DTS"].map String.data

def t3StopAlt (l : Str) : Option Unit :=
  t3StopWords.findSome? (fun w => if swCI w l then some () else none)

/-- After the lazy main-title group of `(.+?)\.(S\d{1,2}E\d{1,3})\.(.+?)(?:\.(…))`:
a dot, the season/episode token, a dot, then the lazy episode-title group
bounded by a dot and the stop alternation. -/
def t1After (stopAlt : Str -> Option Unit) : Str -> Option Str := fun rest =>
  chC '.' (seInner (chC '.' (fun r4 =>
    (lazyCap (fun t => chC '.' (fun r6 => stopAlt r6) t) [] r4).map
      (fun pr => pr.1)))) rest

/-- The capture processing of the first dot-separated pattern
(parser.rs 945-967). -/
def t1Process (main_title0 episode_title : Str) : Str × Str :=
  let main1 := replA matchYearDotAt ['.'] main_title0
  let main2 := trimStr (replA matchYearEndAt [] main1)
  let cleaned_episode := trimStr (replaceS episode_title ".".data spc)
  let cleaned_main := replaceS main2 ".".data spc
  let cleaned_main_no_year :=
    trimStr (replA (fun p l => (matchBareYearAt p l).map (fun pr => pr.1)) [] cleaned_main)
  (clean_title cleaned_main_no_year, clean_title cleaned_episode)

/-- The capture processing shared by the second dot-separated pattern and the
`E\d{3,}` pattern (parser.rs 973-981, 987-995). -/
def tDotProcess (main_title episode_title : Str) : Str × Str :=
  let cleaned_episode := trimStr (replaceS episode_title ".".data spc)
  let cleaned_main := trimStr (replaceS main_title ".".data spc)
  (clean_title cleaned_main, clean_title cleaned_episode)

/-- After the lazy group of `(.+?)\.E\d{3,}\.(.+?)(?:\.(…))` (parser.rs 986). -/
def t3After : Str -> Option Str := fun rest =>
  chC '.' (chI 'E' (fun r2 =>
    let ds := r2.takeWhile isDig
    if 3 ≤ ds.length then
      chC '.' (fun r4 =>
        (lazyCap (fun t => chC '.' (fun r6 => t3StopAlt r6) t) [] r4).map Prod.fst)
        (r2.drop ds.length)
    else none)) rest

def stopWords45 : List Str :=
  ["German", "English", "French", "Spanish", "Italian", "Portuguese", "Russian",
   "Dutch", "Polish", "Swedish", "Norwegian", "Danish", "Finnish", "Japanese",
   "Chinese", "Korean", "Arabic", "Turkish", "NORDiC", "SWEDiSH", "NORWEGiAN",
   "GERMAN", "DL", "TV", "Dubbed", "Subbed", "BluRay", "BDRip", "DVDRip",
   "WEB-DL", "HDTV", "1080p", "720p", "480p", "x264", "x265", "h264", "h265",
   "HEVC", "AVC", "SVCD", "VCD", "READ", "NFO"].map String.data

/-- After the lazy group of `(.+?)\.(S\d{1,2}E\d{1,3})\.(.+?)\.{stop}(?:\.|$)`
(parser.rs 1003). -/
def t4After (stop : Str) : Str -> Option Str := fun rest =>
  chC '.' (seInner (chC '.' (fun r4 =>
    (lazyCap (fun t =>
      chC '.' (litI stop (fun r7 =>
        match r7 with
        | [] => some ()
        | '.' :: _ => some ()
        | _ => none)) t) [] r4).map Prod.fst))) rest

/-- The stop-word loop (parser.rs 1001-1017): the first stop word whose
pattern matches with a nonempty cleaned episode title wins. -/
def t4Loop (rn : Str) : List Str -> Option (Str × Str)
  | [] => none
  | stop :: rest =>
    match findLazySplit (t4After stop) rn with
    | some (main, ep) =>
      let cleaned_episode := trimStr (replaceS ep ".".data spc)
      let cleaned_main := trimStr (replaceS main ".".data spc)
      if cleaned_episode ≠ [] then
        some (clean_title cleaned_main, clean_title cleaned_episode)
      else t4Loop rn rest
    | none => t4Loop rn rest

/-- `(?i)\s*-\s*S\d{1,2}E\d{1,3}(?:-E\d{1,3})?\s*-\s*([^-\[\{]+)` at one
position (parser.rs 1020), returning the episode-title capture. -/
def matchDashSEAt (_ : Option Char) (l : Str) : Option Str :=
  wsS (chC '-' (wsS (seInner (fun r4 =>
    let afterOpt : Str -> Option Str := fun r5 =>
      wsS (chC '-' (wsS (fun r8 =>
        let cap := r8.takeWhile (fun c => !(c = '-' || c = '[' || c = lbrace))
        if cap ≠ [] then some cap else none))) r5
    match (match r4 with
           | '-' :: r5 =>
             chI 'E' (fun r6 => bdLH 1 (fun _ r7 => afterOpt r7) 3 r6) r5
           | _ => none) with
    | some cap => some cap
    | none => afterOpt r4)))) l

/-- `^(.+?)\s*-\s*S\d{1,2}E\d{1,3}` (anchored; parser.rs 1024). -/
def titleBeforeSE (rn : Str) : Option Str :=
  (lazyCap (fun t => wsS (chC '-' (wsS (seInner (fun _ => some ())))) t) [] rn).map
    Prod.fst

/-- The main-title cleanup battery shared by the three dash-delimited tiers
(parser.rs 1026-1050, 1064-1082, 1094-1112): year in parentheses, brace ids,
bracket ids, edition. -/
def tidyMainTitle (m : Str) : Str :=
  let m := replA matchWsParenYearAt spc m
  let m := replA (matchWsBraceIdAt "tmdb-".data) spc m
  let m := replA (matchWsBraceIdAt "tvdb-".data) spc m
  let m := replA (fun p l =>
    match matchWsBraceIdAt "imdb-tt".data p l with
    | some n => some n
    | none => matchBrackIdLen "imdb".data true l) spc m
  let m := replA (fun _ l => matchBrackIdLen "tmdb".data false l) spc m
  let m := replA matchWsEditionAt spc m
  m

/-- The `- SxxExx - Episode Title` tier (parser.rs 1019-1057). -/
def t5Stage (rn : Str) : Option (Str × Str) :=
  match findFirst matchDashSEAt rn with
  | some ep0 =>
    let episode_title := trimStr ep0
    (match titleBeforeSE rn with
     | some main0 => some (clean_title (tidyMainTitle main0), clean_title episode_title)
     | none => some ([], clean_title episode_title))
  | none => none

/-- `\s*-\s*\d{4}-\d{2}-\d{2}\s*-\s*([^-\[\{]+)` at one position
(parser.rs 1059). -/
def matchDashDateAt (_ : Option Char) (l : Str) : Option Str :=
  wsS (chC '-' (wsS (fun r2 =>
    match exactDigStr 4 r2 with
    | some (_, r3) =>
      chC '-' (fun r4 =>
        match exactDigStr 2 r4 with
        | some (_, r5) =>
          chC '-' (fun r6 =>
            match exactDigStr 2 r6 with
            | some (_, r7) =>
              wsS (chC '-' (wsS (fun r10 =>
                let cap := r10.takeWhile (fun c => !(c = '-' || c = '[' || c = lbrace))
                if cap ≠ [] then some cap else none))) r7
            | none => none) r5
        | none => none) r3
    | none => none))) l

/-- `^(.+?)\s*-\s*\d{4}-\d{2}-\d{2}` (anchored; parser.rs 1062). -/
def titleBeforeDate (rn : Str) : Option Str :=
  (lazyCap (fun t => wsS (chC '-' (wsS (fun r2 =>
    match exactDigStr 4 r2 with
    | some (_, r3) =>
      chC '-' (fun r4 =>
        match exactDigStr 2 r4 with
        | some (_, r5) =>
          chC '-' (fun r6 => (exactDigStr 2 r6).map (fun _ => ())) r5
        | none => none) r3
    | none => none))) t) [] rn).map Prod.fst

/-- The date-based tier (parser.rs 1058-1087); when the main-title pattern
fails the tier falls through without a result. -/
def t6Stage (rn : Str) : Option (Str × Str) :=
  match findFirst matchDashDateAt rn with
  | some ep0 =>
    (match titleBeforeDate rn with
     | some main0 =>
       some (clean_title (tidyMainTitle main0), clean_title (trimStr ep0))
     | none => none)
  | none => none

/-- `\s*-\s*\d{3}(?:-\d{3})?\s*-\s*([^-\[\{]+)` at one position
(parser.rs 1089). -/
def matchDashNum3At (_ : Option Char) (l : Str) : Option Str :=
  wsS (chC '-' (wsS (fun r2 =>
    match exactDigStr 3 r2 with
    | some (_, r3) =>
      let afterNum : Str -> Option Str := fun r =>
        wsS (chC '-' (wsS (fun r6 =>
          let cap := r6.takeWhile (fun c => !(c = '-' || c = '[' || c = lbrace))
          if cap ≠ [] then some cap else none))) r
      (match (match r3 with
              | '-' :: r4 => (exactDigStr 3 r4).bind (fun pr => afterNum pr.2)
              | _ => none) with
       | some cap => some cap
       | none => afterNum r3)
    | none => none))) l

/-- `^(.+?)\s*-\s*\d{3}(?:-\d{3})?` (anchored; parser.rs 1092). -/
def titleBeforeNum3 (rn : Str) : Option Str :=
  (lazyCap (fun t => wsS (chC '-' (wsS (fun r2 =>
    match exactDigStr 3 r2 with
    | some (_, r3) =>
      (match (match r3 with
              | '-' :: r4 => (exactDigStr 3 r4).map (fun _ => ())
              | _ => none) with
       | some u => some u
       | none => some ())
    | none => none))) t) [] rn).map Prod.fst

/-- The episode-number tier (parser.rs 1088-1117); falls through when the
main-title pattern fails. -/
def t7Stage (rn : Str) : Option (Str × Str) :=
  match findFirst matchDashNum3At rn with
  | some ep0 =>
    (match titleBeforeNum3 rn with
     | some main0 =>
       some (clean_title (tidyMainTitle main0), clean_title (trimStr ep0))
     | none => none)
  | none => none

/-- The metadata exclusion of the anime bracket-title branch
(parser.rs 1148-1165). -/
def t8MetaOK (bc : Str) : Bool :=
  !(eqListCI bc "AVC".data) && !(eqListCI bc "GB".data) &&
  !(eqListCI bc "1080P".data) && !(eqListCI bc "720p".data) &&
  !(eqListCI bc "1080p".data) &&
  !(hasSub "WEB-DL".data bc) && !(hasSub "WEBRip".data bc) &&
  !(hasSub "WEBDL".data bc) &&
  !(hasSub "MultiSub".data bc) && !(hasSub "Multi-Subs".data bc) &&
  !(hasSub "Surround Sound".data bc) &&
  !(hasSub "x264".data bc) && !(hasSub "x265".data bc) &&
  !(hasSub "h264".data bc) && !(hasSub "h265".data bc) &&
  !(hasSub "HEVC".data bc) && !(hasSub "AVC".data bc) &&
  !(bc.all (fun c => c.isDigit))

/-- The positive bracket-title selection for bracket-prefixed anime names
(parser.rs 1129-1175): the first bracket with two or more English words that
is not the group and not metadata. -/
def t8Pick (group : Str) : List Str -> Option Str
  | [] => none
  | bc0 :: rest =>
    let bc := trimStr bc0
    if group ≠ [] &&
        (bc = trimStr group ||
         replaceS bc " ".data [] = replaceS (trimStr group) " ".data []) then
      t8Pick group rest
    else
      let words := splitWS bc
      if 2 ≤ words.length && words.all (fun w => w.any (fun c => isAlphaA c)) &&
          t8MetaOK bc then
        some bc
      else t8Pick group rest

def t8Stage (rt rn : Str) (group : Str) : Option Str :=
  if rn.head? = some '[' && rt = "tv".data then t8Pick group (bracketContents rn)
  else none

/-- Group removal at the head of the subtraction path (parser.rs 1178-1198). -/
def subGroupRemoval (rn : Str) (group : Str) : Str :=
  if group ≠ [] then
    if rn.head? = some '[' then
      match matchLeadBracket rn with
      | some (content, rest) =>
        let pg := trimStr content
        let gt := trimStr group
        if eqListCI pg gt ||
            eqListCI (replaceS pg " ".data []) (replaceS gt " ".data []) then
          trimStr rest
        else rn
      | none => rn
    else
      match rsplitLast '-' rn with
      | some (before, _) => before
      | none => rn
  else rn

def bracketMetaWords : List Str :=
  ["Remux", "TrueHD", "DTS-HD", "DTS HD", "EAC3", "WEB-DL", "WEBRip", "WEBDL",
   "BluRay", "Bluray", "x264", "x265", "h264", "h265", "HEVC", "AVC", "AAC",
   "AC3", "DTS", "MultiSub", "Multi-Subs", "HDR10", "DV HDR10", "HDR10Plus",
   "DV HDR10Plus", "1080p", "720p", "2160p", "480p", "GB", "Surround Sound",
   "imdbid", "imdb", "tmdb"].map String.data

/-- The metadata test applied to each bracket content (parser.rs 1206-1251). -/
def bracketIsMeta (bc : Str) : Bool :=
  bracketMetaWords.any (fun w => hasSub w bc) ||
  eqListCI bc "AVC".data || eqListCI bc "GB".data || eqListCI bc "1080P".data ||
  bc.all (fun c => isDig c || isUpperA c || c = ' ' || c = '-' || c = '.')

/-- Collect the metadata brackets of `working` and replace each of them
(as a literal substring) by a space (parser.rs 1203-1260). -/
def subBrackets (w : Str) : Str :=
  (bracketContents w).foldl
    (fun acc bc =>
      if bracketIsMeta bc then replaceS acc ('[' :: bc ++ [']']) spc else acc) w

/-- The group-from-title removal block near the end of the subtraction path
(parser.rs 1474-1497). -/
def endsWith (suf l : Str) : Bool := swCS suf.reverse l.reverse

def subGroupTitle (w0 : Str) (group : Str) : Str :=
  if group ≠ [] then
    let gt := trimStr group
    let gb := '[' :: gt ++ [']']
    let w1 := if swCS gb w0 then trimStr (w0.drop gb.length) else w0
    let gbo := '[' :: group ++ [']']
    let w2 := if swCS gbo w1 then trimStr (w1.drop gbo.length) else w1
    let gws := ' ' :: gt
    let w3 :=
      if endsWith gws w2 then trimStr (w2.take (w2.length - gws.length))
      else if endsWith gt w2 then trimStr (w2.take (w2.length - gt.length))
      else w2
    let w4 := replaceS w3 (' ' :: gt) spc
    let w5 := replaceS w4 gt spc
    trimStr w5
  else w0

/-- The `patterns_to_remove` battery (parser.rs 1313-1340), applied in
catalog order, each replaced by a space. -/
def subPatterns (w : Str) : Str :=
  let w := replA matchSEFullLenAt spc w
  let w := replA matchE2LenAt spc w
  let w := replA matchE3PlusLenAt spc w
  let w := replA matchSDashLenAt spc w
  let w := replA matchNxMLenAt spc w
  let w := replA matchSeasonWordLenAt spc w
  let w := replA (fun p l => (matchBareYearAt p l).map (fun pr => pr.1)) spc w
  let w := replA (fun p l => (matchBareResAt p l).map (fun ds => ds.length + 1)) spc w
  let w := replA (fun p l => (matchParenResAt p l).map (fun ds => ds.length + 3)) spc w
  let w := replA matchParenMetaAt spc w
  let w := replA matchReadNfoLenAt spc w
  let w := replA (fun _ l => if swCI "PROPER".data l then some 6 else none) spc w
  let w := replA (fun _ l => if swCI "REPACK".data l then some 6 else none) spc w
  let w := replA (fun _ l => if swCS "[Eng.Hard.Sub]".data l then some 14 else none) spc w
  let w := replA (fun _ l => if swCS "[U-Edition]".data l then some 11 else none) spc w
  let w := replA matchDdpVerLenAt spc w
  let w := replA matchDdpIntLenAt spc w
  let w := replA matchEpisodeNumLenAt spc w
  let w := replA matchAudioVerWordLenAt spc w
  let w := replA matchExtAt spc w
  w

/-- The non-streaming prefix of the `remove_list` catalog (parser.rs
1344-1373); its trailing section is `streamingProviders`. -/
def removeListPre : List Str :=
  ["DVDRip", "DVD-Rip", "DVDR", "DVD5", "DVD9", "DVD-R",
    "DvDrip", "WEB-DL", "WEBRip", "Web Rip", "Web Download", "WEB",
    "WEBDL", "AMZN WEBDL", "MA WEBDL", "HDTV", "PDTV", "DSR",
    "SATRip", "TVRip", "iNTERNAL HDTV", "iNTERNAL", "INTERNAL", "BluRay",
    "BDRip", "BRRip", "BD", "Remux", "Hybrid", "VHSRip",
    "R5", "TC", "TS", "CAM", "SCR", "HDCAM",
    "TELESYNC", "TELECINE", "Workprint", "WP", "PPV Rip", "PPVRip",
    "DDC", "VOD Rip", "VODRip", "HC HD Rip", "HCHDRip", "Web Capture",
    "HDRip", "DCP", "Theatre", "Theater", "SVCD", "VCD",
    "XviD", "DivX", "x264", "x265", "h265", "h264",
    "HEVC", "AVC", "H.264", "H.265", "H264", "H265",
    "MPEG2", "MPEG4", "AC3", "DTS", "AAC", "MP3",
    "TrueHD", "EAC3", "Atmos", "Surround Sound", "DDP", "DDP2.0",
    "DDP5.1", "DDP2", "DDP5", "Dolby Digital Plus", "AAC 2.0", "AAC2.0",
    "AAC 5.1", "AAC5.1", "AC3 2.0", "AC3 5.1", "DTS 5.1", "DTS 2.0",
    "German", "English", "French", "Spanish", "Italian", "Eng",
    "NORDiC", "SWEDiSH", "NORWEGiAN", "Swedish", "Norwegian", "Danish",
    "Finnish", "Japanese", "Chinese", "Korean", "Arabic", "Turkish",
    "Multi", "MULTI", "Dubbed", "Subbed", "Hard.Sub", "HardSub",
    "TV", "DL", "READNFO", "NFO", "HDR10", "DV",
    "HDR10Plus", "3D", "10bit", "IMAX", "HYBRID", "REMASTERED",
    "Proper", "Uncut", "Extended", "Limited", "Special", "Collector",
    "Ultimate", "Edition", "U-Edition", "Director", "Cut", "ANiME",
    "MultiSub", "Multi-Subs"].map String.data

def removeList : List Str := removeListPre ++ streamingProviders

def subRemoveList (w : Str) : Str :=
  removeList.foldl (fun acc it => replA (tripleAt it) spc acc) w

/-- Strip the leading group bracket before the old-format split
(parser.rs 1501-1514). -/
def t10WFS (rn : Str) (group : Str) : Str :=
  if group ≠ [] && rn.head? = some '[' then
    match matchLeadBracket rn with
    | some (content, rest) =>
      let pg := trimStr content
      let gt := trimStr group
      if eqListCI pg gt ||
          eqListCI (replaceS pg " ".data []) (replaceS gt " ".data []) then
        trimStr rest
      else rn
    | none => rn
  else rn

def dotWS (c : Char) : Bool := c = '.' || isWS c

/-- After the lazy group of `(?i)(.+?)[.\s]+S\d{1,2}E\d{1,3}[.\s]+(.+)`
(parser.rs 1518): returns the second capture. -/
def t10After : Str -> Option Str := fun t =>
  match t with
  | c :: t2 =>
    if dotWS c then
      seInner (fun r4 =>
        match r4 with
        | d :: r5 =>
          if dotWS d then
            (let rest2 := r5.dropWhile dotWS
             let cap := rest2.takeWhile dotChar
             if cap ≠ [] then some cap else none)
          else none
        | [] => none) (t2.dropWhile dotWS)
    else none
  | [] => none

/-- The old-format split tier (parser.rs 1516-1543). -/
def t10Stage (rn : Str) (group : Str) : Option (Str × Str) :=
  let wfs := t10WFS rn group
  match findLazySplit t10After wfs with
  | some (title0, extra0) =>
    let title := trimStr title0
    let extra := trimStr extra0
    let title := replA matchYearDotAt ['.'] title
    let title := trimStr (replA matchYearEndAt [] title)
    let title_with_spaces := replaceS title ".".data spc
    let title_no_year :=
      trimStr (replA (fun p l => (matchBareYearAt p l).map (fun pr => pr.1)) []
        title_with_spaces)
    some (clean_title title_no_year, clean_title (replaceS extra ".".data spc))
  | none => none

/-- After the lazy group of `(.+?)\s+(\d{1,2})\s*-\s*(\d{1,3})`
(parser.rs 1547). -/
def t10bAfter : Str -> Option Unit := fun t =>
  wsP (fun r2 =>
    bdLH 1 (fun _ r3 =>
      wsS (chC '-' (wsS (bdLH 1 (fun _ _ => some ()) 3))) r3) 2 r2) t

/-- The anime `Title 5 - 01` tier (parser.rs 1545-1558). -/
def t10bStage (rn : Str) (group : Str) : Option (Str × Str) :=
  let wfs := t10WFS rn group
  match findLazySplit t10bAfter wfs with
  | some (title0, _) =>
    let title := trimStr title0
    let title2 := trimStr (replA matchCountryEndAt [] title)
    some (clean_title title2, [])
  | none => none

/-- The subtraction path and the trailing tv tiers of `extract_title`
(parser.rs 1120-1562). -/
def titleFallback (rt rn : Str) (parsed : ParsedRelease) : Str × Str :=
  match t8Stage rt rn parsed.group with
  | some title => (clean_title title, [])
  | none =>
    let w := subGroupRemoval rn parsed.group
    let w := subBrackets w
    let w := replA matchEmptyBrackAt spc w
    let w := replA matchWSBrackAt spc w
    let w := replA (matchBraceIdLenAt "tmdb-".data) spc w
    let w := replA (fun p l =>
      match matchBraceIdLenAt "tvdb-".data p l with
      | some n => some n
      | none => matchBrackIdLen "tvdb".data false l) spc w
    let w := replA (fun p l =>
      match matchBraceIdLenAt "imdb-tt".data p l with
      | some n => some n
      | none => matchBrackIdLen "imdb".data true l) spc w
    let w := replA matchBraceEditionLenAt spc w
    let w := replA (fun _ l => matchBrackIdLen "tmdb".data false l) spc w
    let w := replA matchBraceEditionLenAt spc w
    let w := replA (fun p l => (matchParenYearAt p l).map (fun _ => 6)) spc w
    let w := replA (fun p l => (matchBrackYearAt p l).map (fun _ => 6)) spc w
    let w := subPatterns w
    let w := subRemoveList w
    let w :=
      if parsed.streaming_provider ≠ [] then
        replA (tripleAt parsed.streaming_provider) spc w
      else w
    let w := replA matchExtAt [] w
    let w := replA matchBigNumBrackAt spc w
    let w := replA matchEmptyParenAt spc w
    let w := replA matchDdpSplitAt spc w
    let w := replA matchEmptyBrackAt spc w
    let w := replaceS w ".".data spc
    let w := replaceS w "-".data spc
    let w := collapseWS w
    let w := trimStr w
    let w := replA matchEmptyBrackAt spc w
    let w := replA matchEmptyParenAt spc w
    let w := trimStr w
    let w := subGroupTitle w parsed.group
    if rt = "tv".data then
      match t10Stage rn parsed.group with
      | some pr => pr
      | none =>
        match t10bStage rn parsed.group with
        | some pr => pr
        | none => (clean_title w, [])
    else (clean_title w, [])

/-- `ReleaseParser::extract_title` (parser.rs 934-1563). -/
def extract_title (rt rn : Str) (parsed : ParsedRelease) : Str × Str :=
  if rt = "tv".data then
    match findLazySplit (t1After t1StopAlt) rn with
    | some (main, ep) => t1Process main ep
    | none =>
      match findLazySplit (t1After t2StopAlt) rn with
      | some (main, ep) => tDotProcess main ep
      | none =>
        match findLazySplit t3After rn with
        | some (main, ep) => tDotProcess main ep
        | none =>
          match t4Loop rn stopWords45 with
          | some pr => pr
          | none =>
            match t5Stage rn with
            | some pr => pr
            | none =>
              match t6Stage rn with
              | some pr => pr
              | none =>
                match t7Stage rn with
                | some pr => pr
                | none => titleFallback rt rn parsed
  else titleFallback rt rn parsed

/-! ## The record assembler (`ReleaseParser::parse`, parser.rs 161-313).
The sequential field mutations of the source become one record literal; the
two episode-mutating blocks are threaded explicitly as a state triple
`(season, episode, episodes)`. -/

/-- The tv season/episode block of `parse` (parser.rs 174-199): a season of
`0` from `extract_season_episode` means "no season"; the episode field is set
only when exactly one episode was found; otherwise the `Episode N` fallback. -/
def parseEpisodeStage1 (rt rn : Str) : Option Nat × Option Nat × List Nat :=
  if rt = "tv".data then
    match extract_season_episode rn with
    | some (season, episode, episodes) =>
      (if 0 < season then some season else none,
       if episodes.length = 1 then some episode else none,
       episodes)
    | none =>
      match findFirst matchEpisodeWordAt rn with
      | some e => (none, some e, [e])
      | none => (none, none, [])
  else (none, none, [])

/-- The episode-number block of `parse` (parser.rs 254-289): a `ddd-ddd`
capture replaces the episode state by the expanded range; a single capture
fills the episode only when none was set. -/
def parseEpisodeStage2 (rn : Str) (st : Option Nat × Option Nat × List Nat) :
    Option Nat × Option Nat × List Nat :=
  match extract_episode_number rn with
  | some ep_num =>
    if ep_num.contains '-' then
      match splitOnC '-' ep_num with
      | [p1, p2] =>
        (match parseU128 p1, parseU128 p2 with
         | some a, some b =>
           (st.1, if (rangeList a b).length = 1 then some a else none, rangeList a b)
         | _, _ => st)
      | _ => st
    else
      match parseU128 ep_num with
      | some ep =>
        (match st.2.1 with
         | none => (st.1, some ep, [ep])
         | some _ => st)
      | none => st
  | none => st

/-- `ReleaseParser::parse` (parser.rs 161-313). -/
def parse (rt rn : Str) : ParsedRelease :=
  let group := (extract_group rn).getD []
  let st := parseEpisodeStage2 rn (parseEpisodeStage1 rt rn)
  let pre : ParsedRelease :=
    { release := rn
      release_type := rt
      group := group
      season := st.1
      episode := st.2.1
      episodes := st.2.2
      year := extract_year rn
      source := extract_source rn
      format := extract_format rn
      resolution := extract_resolution rn
      audio := extract_audio rn
      device := extract_device rn
      os := extract_os rn
      version := extract_version rn
      language := extract_languages rn
      flags := extract_flags rn
      tmdb_id := extract_tmdb_id rn
      tvdb_id := extract_tvdb_id rn
      imdb_id := extract_imdb_id rn
      edition := extract_edition rn
      date := extract_date rn
      hdr := extract_hdr rn
      streaming_provider := extract_streaming_provider rn }
  let te := extract_title rt rn pre
  { pre with title := te.1, episode_title := te.2, disc := extract_disc rn }

/-! ## Directory and path parsing (parser.rs 16-159) -/

/-- `ReleaseParser::parse_series_directory` (parser.rs 17-57). -/
def parse_series_directory (directory_name : Str) : ParsedRelease :=
  let title0 := replA matchWsParenYearAt spc directory_name
  let title1 := replA (matchWsBraceIdAt "tmdb-".data) spc title0
  let title2 := replA (fun p l =>
    match matchWsBraceIdAt "tvdb-".data p l with
    | some n => some n
    | none => matchBrackIdLen "tvdb".data false l) spc title1
  let title3 := replA (fun p l =>
    match matchWsBraceIdAt "imdb-tt".data p l with
    | some n => some n
    | none => matchBrackIdLen "imdb".data true l) spc title2
  { release := directory_name
    release_type := "series".data
    year := extract_year directory_name
    tmdb_id := extract_tmdb_id directory_name
    tvdb_id := extract_tvdb_id directory_name
    imdb_id := extract_imdb_id directory_name
    title := clean_title title3 }

/-- `ReleaseParser::parse_movie_directory` (parser.rs 60-94). -/
def parse_movie_directory (directory_name : Str) : ParsedRelease :=
  let title0 := replA matchWsParenYearAt spc directory_name
  let title1 := replA (fun p l =>
    match matchWsBraceIdAt "tmdb-".data p l with
    | some n => some n
    | none => matchBrackIdLen "tmdb".data false l) spc title0
  let title2 := replA (fun p l =>
    match matchWsBraceIdAt "imdb-tt".data p l with
    | some n => some n
    | none => matchBrackIdLen "imdb".data true l) spc title1
  { release := directory_name
    release_type := "movie".data
    year := extract_year directory_name
    tmdb_id := extract_tmdb_id directory_name
    imdb_id := extract_imdb_id directory_name
    title := clean_title title2 }

/-- `(?i)Season\s+(\d+)` at one position. -/
def matchSeasonDirAt (_ : Option Char) (l : Str) : Option Str :=
  litI "Season".data (fun r1 =>
    match r1 with
    | x :: t => if isWS x then (digPlusS (t.dropWhile isWS)).map Prod.fst else none
    | [] => none) l

/-- `ReleaseParser::parse_season_directory` (parser.rs 97-107); the `u128`
parse of the capture can overflow, in which case `None` is returned. -/
def parse_season_directory (directory_name : Str) : Option Nat :=
  match findFirst matchSeasonDirAt directory_name with
  | some ds => parseU128 ds
  | none => none

/-- `file_path.replace('\\', "/")`. -/
def normalizeSlashes (p : Str) : Str := p.map (fun c => if c = bslash then '/' else c)

/-- Model of `std::path::Path` segment access for the slash-normalized paths
used by `parse_path`: the segments are the nonempty `/`-separated components;
`file_name` of a path is its last segment unless that segment is `..`
(`.` components and other `std::path` quirks lie outside the inputs of this
development). -/
def pathSegments (p : Str) : List Str := (splitOnC '/' p).filter (fun s => s ≠ [])

def segFileName (s : Str) : Option Str := if s = "..".data then none else some s

/-- `Path::file_stem`: the part of a file name before its last dot, unless
the only dot is the leading one. -/
def fileStemOf (name : Str) : Str :=
  let r := name.reverse
  let afterR := r.takeWhile (fun c => c ≠ '.')
  match r.drop afterR.length with
  | '.' :: beforeR => if beforeR = [] then name else beforeR.reverse
  | _ => name

/-- `ReleaseParser::parse_path` (parser.rs 110-159): parse the extension-free
file name, classify the parent as a season directory, and parse the
series/movie directory above it with the release type inferred from the file. -/
def parse_path (rt p : Str) : Option PathInfo :=
  let norm := normalizeSlashes p
  let rsegs := (pathSegments norm).reverse
  match rsegs.head?.bind segFileName with
  | none => none
  | some fileseg =>
    let file_parsed := parse rt (fileStemOf fileseg)
    let rtype :=
      if file_parsed.season.isSome || file_parsed.episode.isSome then "tv".data
      else "movie".data
    match rsegs[1]?.bind segFileName with
    | none => none
    | some season_dir_name =>
      let season := parse_season_directory season_dir_name
      match (if season.isSome then rsegs[2]?.bind segFileName
             else rsegs[1]?.bind segFileName) with
      | none => none
      | some series_dir =>
        let directory :=
          if rtype = "tv".data then parse_series_directory series_dir
          else parse_movie_directory series_dir
        some { directory := some directory
               season := season
               file := file_parsed
               full_path := p }

/-! ## Field accessor (`ParsedRelease::get`, types.rs 38-71) -/

def natStr (n : Nat) : Str := (toString n).data

def joinComma : List Str → Str
  | [] => []
  | [x] => x
  | x :: xs => x ++ ',' :: joinComma xs

def ParsedRelease.get (r : ParsedRelease) (field : Str) : Option Str :=
  if field = "release".data then some r.release
  else if field = "title".data then some r.title
  else if field = "title_extra".data then some r.title_extra
  else if field = "episode_title".data then some r.episode_title
  else if field = "group".data then some r.group
  else if field = "year".data then r.year.map natStr
  else if field = "date".data then r.date
  else if field = "season".data then r.season.map natStr
  else if field = "episode".data then r.episode.map natStr
  else if field = "episodes".data then
    (if r.episodes = [] then none else some (joinComma (r.episodes.map natStr)))
  else if field = "disc".data then r.disc.map natStr
  else if field = "source".data then some r.source
  else if field = "format".data then some r.format
  else if field = "resolution".data then some r.resolution
  else if field = "audio".data then some r.audio
  else if field = "device".data then some r.device
  else if field = "os".data then some r.os
  else if field = "version".data then some r.version
  else if field = "tmdb_id".data then r.tmdb_id
  else if field = "tvdb_id".data then r.tvdb_id
  else if field = "imdb_id".data then r.imdb_id
  else if field = "edition".data then r.edition
  else if field = "hdr".data then some r.hdr
  else if field = "streaming_provider".data then some r.streaming_provider
  else if field = "type".data then some r.release_type
  else none

/-! ## Helper lemmas -/

theorem rangeList_one {a b : Nat} (h : (rangeList a b).length = 1) : rangeList a b = [a] := by
  have h1 : b + 1 - a = 1 := by simpa [rangeList] using h
  simp [rangeList, h1, List.range_succ]

/-- Whenever `extract_season_episode` reports exactly one episode, the
episode list is exactly the singleton of the reported episode. -/
theorem ese_eps_one {rn : Str} {s e : Nat} {eps : List Nat}
    (h : extract_season_episode rn = some (s, e, eps)) (hlen : eps.length = 1) :
    eps = [e] := by
  unfold extract_season_episode seE3Tier seRangeTier seSingleTier seBareDashTier at h
  repeat' split at h
  all_goals simp only [Option.some.injEq, Prod.mk.injEq, reduceCtorEq] at h
  all_goals (obtain ⟨h1, h2, h3⟩ := h; subst h3; subst h2)
  all_goals (first | rfl | (simp at hlen) | (exact rangeList_one hlen))

/-- The episode/episodes consistency invariant of the data model. -/
def EpInv (ep : Option Nat) (eps : List Nat) : Prop :=
  (ep.isSome = true ↔ eps.length = 1) ∧ ∀ e, ep = some e → eps = [e]

theorem iteSt_inv (episode : Nat) (episodes : List Nat)
    (hone : episodes.length = 1 → episodes = [episode]) :
    EpInv (if episodes.length = 1 then some episode else none) episodes := by
  constructor
  · by_cases hl : episodes.length = 1 <;> simp [hl]
  · intro e he
    by_cases hl : episodes.length = 1
    · rw [if_pos hl] at he
      injection he with he
      subst he
      exact hone hl
    · rw [if_neg hl] at he
      exact absurd he (by simp)

theorem singleSt_inv (ep : Nat) : EpInv (some ep) [ep] :=
  ⟨by simp, by intro e he; injection he with he; subst he; rfl⟩

theorem noneSt_inv : EpInv none [] :=
  ⟨by simp, by intro e he; exact absurd he (by simp)⟩

theorem stage1_inv (rt rn : Str) :
    EpInv (parseEpisodeStage1 rt rn).2.1 (parseEpisodeStage1 rt rn).2.2 := by
  unfold parseEpisodeStage1
  split
  · split
    · next heq => exact iteSt_inv _ _ (fun hl => ese_eps_one heq hl)
    · split
      · exact singleSt_inv _
      · exact noneSt_inv
  · exact noneSt_inv

theorem stage2_inv (rn : Str) (st : Option Nat × Option Nat × List Nat)
    (h : EpInv st.2.1 st.2.2) :
    EpInv (parseEpisodeStage2 rn st).2.1 (parseEpisodeStage2 rn st).2.2 := by
  unfold parseEpisodeStage2
  split
  · split
    · split
      · split
        · exact iteSt_inv _ _ rangeList_one
        · exact h
      · exact h
    · split
      · split
        · exact singleSt_inv _
        · exact h
      · exact h
  · exact h

/-- The episode-number block never touches the season field. -/
theorem stage2_fst (rn : Str) (st : Option Nat × Option Nat × List Nat) :
    (parseEpisodeStage2 rn st).1 = st.1 := by
  unfold parseEpisodeStage2
  repeat' split
  all_goals rfl

/-- The tv block only stores strictly positive seasons. -/
theorem stage1_season_pos (rt rn : Str) (n : Nat)
    (h : (parseEpisodeStage1 rt rn).1 = some n) : 1 ≤ n := by
  unfold parseEpisodeStage1 at h
  repeat' split at h
  all_goals simp_all
  all_goals omega

/-- Every branch of `extract_year` returns only values inside [1900, 2100]. -/
theorem extract_year_bounds (rn : Str) (y : Nat) (h : extract_year rn = some y) :
    1900 ≤ y ∧ y ≤ 2100 := by
  unfold extract_year yearBrackStage yearBareStage at h
  repeat' split at h
  all_goals (first
    | (have hp := List.find?_some h
       simp only [Bool.and_eq_true, decide_eq_true_eq] at hp
       exact hp)
    | simp_all
    | (injection h with h; subst h; simp_all; omega))

theorem takeWhile_app {p : Char → Bool} {c : Str} (h : ∀ x ∈ c, p x = true) (d : Str) :
    (c ++ d).takeWhile p = c ++ d.takeWhile p := by
  induction c with
  | nil => rfl
  | cons x xs ih =>
    simp only [List.cons_append, List.takeWhile_cons]
    rw [h x (by simp)]
    simp only [if_true]
    rw [ih (fun a ha => h a (by simp [ha]))]

theorem drop_len_app (c d : Str) : (c ++ d).drop c.length = d := by
  simpa using List.drop_left c d

/-- Completeness of the `\[[^\]]*Remux[^\]]*\]` scanner: any bracket group
whose content holds `Remux` makes it fire. -/
theorem hasRemuxBracket_app (a c b : Str) (hc : ∀ x ∈ c, (x ≠ ']' : Bool) = true)
    (hr : hasSub "Remux".data c = true) :
    hasRemuxBracket (a ++ '[' :: (c ++ ']' :: b)) = true := by
  induction a with
  | nil =>
    simp only [List.nil_append]
    unfold hasRemuxBracket
    have hc' : ∀ x ∈ c, (!decide (x = ']')) = true := by
      intro x hx
      simpa using hc x hx
    have h1 : (c ++ ']' :: b).takeWhile (fun x => !decide (x = ']')) = c := by
      rw [takeWhile_app hc']
      simp [List.takeWhile_cons]
    have h2 : (c ++ ']' :: b).drop c.length = ']' :: b := drop_len_app c (']' :: b)
    simp [h1, h2, hr]
  | cons x xs ih =>
    simp only [List.cons_append]
    unfold hasRemuxBracket
    rw [ih]
    simp

/-! ## The claims -/

/-- Claim C1: for every release_type string and every input string, `parse`
terminates and returns a `ParsedRelease` record (it is a total function of
the shallow embedding), carrying the raw input and the release type. -/
theorem parse_total (rt rn : Str) :
    ∃ r : ParsedRelease, parse rt rn = r ∧ r.release = rn ∧ r.release_type = rt :=
  ⟨parse rt rn, rfl, rfl, rfl⟩

/-- Claim C2: in every record returned by `parse`, `episode` is present
exactly when `episodes` has length one, and then `episodes` is the singleton
of that episode. -/
theorem episode_episodes_consistent (rt rn : Str) :
    ((parse rt rn).episode.isSome = true ↔ (parse rt rn).episodes.length = 1) ∧
    ∀ e, (parse rt rn).episode = some e → (parse rt rn).episodes = [e] := by
  have h : (parse rt rn).episode = (parseEpisodeStage2 rn (parseEpisodeStage1 rt rn)).2.1 := rfl
  have h2 : (parse rt rn).episodes = (parseEpisodeStage2 rn (parseEpisodeStage1 rt rn)).2.2 := rfl
  rw [h, h2]
  exact stage2_inv rn _ (stage1_inv rt rn)

theorem episode_episodes_witness :
    (parse "tv".data "Show S01E02".data).episode = some 2 ∧
    (parse "tv".data "Show S01E02".data).episodes = [2] :=
  ⟨by decide, (episode_episodes_consistent "tv".data "Show S01E02".data).2 2 (by decide)⟩

/-- Claim C3: whenever the input contains a square-bracket group whose
content (which cannot contain a closing bracket) includes both the marker
`Remux` and the marker `BluRay`, the source field is `Remux`. -/
theorem remux_over_bluray (rt s a c b : Str)
    (hs : s = a ++ '[' :: (c ++ ']' :: b))
    (hc : ∀ x ∈ c, (x ≠ ']' : Bool) = true)
    (hremux : hasSub "Remux".data c = true)
    (hbluray : hasSub "BluRay".data c = true) :
    (parse rt s).source = "Remux".data := by
  have hp : (parse rt s).source = extract_source s := rfl
  rw [hp, hs]
  unfold extract_source
  rw [hasRemuxBracket_app a c b hc hremux]
  rfl

theorem remux_over_bluray_witness :
    (parse "movie".data "Film [Remux BluRay]-GRP".data).source = "Remux".data :=
  remux_over_bluray "movie".data "Film [Remux BluRay]-GRP".data
    "Film ".data "Remux BluRay".data "-GRP".data
    (by decide) (by decide) (by decide) (by decide)

/-- Claim C4, counterexample: the flag catalog lists the canonical name
`READNFO` under two distinct patterns, so the input `READNFO` produces the
flag twice and the flags sequence is not duplicate-free. -/
theorem flags_duplicate_counterexample :
    (parse "movie".data "READNFO".data).flags = ["READNFO".data, "READNFO".data] ∧
    ¬ (parse "movie".data "READNFO".data).flags.Nodup := by
  constructor
  · decide
  · decide

/-- Claim C4, amended: each flag pattern fires at most once, so no canonical
name occurs in `flags` more often than it occurs in the pattern catalog;
`READNFO` and `RERIP` are carried by two patterns each and can therefore
appear twice, while names carried by one pattern (PROPER, REPACK, 3D,
10bit, …) appear at most once. -/
theorem flags_bounded_by_catalog :
    (∀ rt rn name : Str,
      ((parse rt rn).flags.count name) ≤ ((flagPatterns.map Prod.fst).count name)) ∧
    (flagPatterns.map Prod.fst).count "READNFO".data = 2 ∧
    (flagPatterns.map Prod.fst).count "RERIP".data = 2 ∧
    (flagPatterns.map Prod.fst).count "PROPER".data = 1 ∧
    (flagPatterns.map Prod.fst).count "REPACK".data = 1 ∧
    (flagPatterns.map Prod.fst).count "3D".data = 1 ∧
    (flagPatterns.map Prod.fst).count "10bit".data = 1 := by
  refine ⟨?_, by decide, by decide, by decide, by decide, by decide, by decide⟩
  intro rt rn name
  have h : (parse rt rn).flags = extract_flags rn := rfl
  rw [h]
  unfold extract_flags
  exact ((List.filter_sublist _).map Prod.fst).count_le name

/-- Claim C5: `S01E01-E03` parsed as tv yields the inclusive range
`[1, 2, 3]` and no single episode. -/
theorem range_expansion :
    (parse "tv".data "S01E01-E03".data).episodes = [1, 2, 3] ∧
    (parse "tv".data "S01E01-E03".data).episode = none := by
  constructor
  · decide
  · decide

/-- Claim C6: a returned year always lies in [1900, 2100]; four-digit
numbers outside that window anywhere in the input are never returned. -/
theorem year_bounds (rt rn : Str) (y : Nat) (h : (parse rt rn).year = some y) :
    1900 ≤ y ∧ y ≤ 2100 := by
  have hp : (parse rt rn).year = extract_year rn := rfl
  rw [hp] at h
  exact extract_year_bounds rn y h

theorem year_bounds_witness : 1900 ≤ 1999 ∧ 1999 ≤ 2100 :=
  year_bounds "movie".data "Movie (1999)".data 1999 (by decide)

/-- Claim C7: the canonical Arrow release string parses to the documented
record. -/
theorem arrow_canonical_example :
    (parse "tv".data "Arrow (2012) - S05E04 - Penance [Bluray-1080p Remux][DTS-HD MA 5.1][AVC]-EPSiLON".data).title = "Arrow".data ∧
    (parse "tv".data "Arrow (2012) - S05E04 - Penance [Bluray-1080p Remux][DTS-HD MA 5.1][AVC]-EPSiLON".data).year = some 2012 ∧
    (parse "tv".data "Arrow (2012) - S05E04 - Penance [Bluray-1080p Remux][DTS-HD MA 5.1][AVC]-EPSiLON".data).season = some 5 ∧
    (parse "tv".data "Arrow (2012) - S05E04 - Penance [Bluray-1080p Remux][DTS-HD MA 5.1][AVC]-EPSiLON".data).episode = some 4 ∧
    (parse "tv".data "Arrow (2012) - S05E04 - Penance [Bluray-1080p Remux][DTS-HD MA 5.1][AVC]-EPSiLON".data).episode_title = "Penance".data ∧
    (parse "tv".data "Arrow (2012) - S05E04 - Penance [Bluray-1080p Remux][DTS-HD MA 5.1][AVC]-EPSiLON".data).source = "Remux".data ∧
    (parse "tv".data "Arrow (2012) - S05E04 - Penance [Bluray-1080p Remux][DTS-HD MA 5.1][AVC]-EPSiLON".data).audio = "DTS-HD MA 5.1".data ∧
    (parse "tv".data "Arrow (2012) - S05E04 - Penance [Bluray-1080p Remux][DTS-HD MA 5.1][AVC]-EPSiLON".data).format = "AVC".data ∧
    (parse "tv".data "Arrow (2012) - S05E04 - Penance [Bluray-1080p Remux][DTS-HD MA 5.1][AVC]-EPSiLON".data).group = "EPSiLON".data := by
  refine ⟨?_, ?_, ?_, ?_, ?_, ?_, ?_, ?_, ?_⟩ <;> decide

/-- Claim C8: a record returned by `parse` never carries season zero: every
stored season is at least 1 (absence is `none`). -/
theorem season_never_zero (rt rn : Str) (n : Nat)
    (h : (parse rt rn).season = some n) : 1 ≤ n := by
  have hp : (parse rt rn).season = (parseEpisodeStage2 rn (parseEpisodeStage1 rt rn)).1 := rfl
  rw [hp, stage2_fst] at h
  exact stage1_season_pos rt rn n h

theorem season_never_zero_witness : 1 ≤ 2 :=
  season_never_zero "tv".data "Show S02E01".data 2 (by decide)

/-- Claim C9: no extraction path assigns `title_extra`: it is the empty
string in every record of `parse`, `parse_series_directory` and
`parse_movie_directory`, and the `get` accessor reports that empty string. -/
theorem title_extra_never_assigned (rt rn : Str) :
    (parse rt rn).title_extra = [] ∧
    (parse rt rn).get "title_extra".data = some [] ∧
    (parse_series_directory rn).title_extra = [] ∧
    (parse_movie_directory rn).title_extra = [] :=
  ⟨rfl, rfl, rfl, rfl⟩

/-- Claim C10: `parse_season_directory` maps the directory name `Season 0`
to season 0, and `parse_path` propagates that zero into the `PathInfo`
season field. -/
theorem season_zero_from_path :
    parse_season_directory "Season 0".data = some 0 ∧
    (parse_path "tv".data "/Show (2010)/Season 0/Ep.mkv".data).map PathInfo.season =
      some (some 0) := by
  constructor
  · decide
  · decide
